import Mathlib

/-
  Verification of the GenAutoCurrent generator-derating controller
  (src/auto_current.py) via a shallow embedding in Lean 4.

  Modelling conventions:
  * Python floats are modelled as rationals (ℚ); the arithmetic of the source
    (conversions, multipliers, 0.01-tolerance comparisons) is exact on ℚ.
  * D-Bus `GetValue` results are modelled by `DVal`: a numeric scalar, an
    array (the source explicitly handles `dbus.Array` at the altitude path),
    or a non-numeric value (`other`).  `_get_dbus_value` returning `None`
    (service unresolved or a caught read error) is modelled by `Option DVal`.
  * Python expressions that can raise an uncaught exception (e.g.
    `float(value)` or `value - x` on a non-scalar) are modelled in the
    `Except PyErr` monad: an `error` result corresponds to an uncaught
    exception escaping the periodic callback.
  * `round(x, 1)` is modelled by `round10` (floor of 10x + 1/2, divided by
    10).  Python uses round-half-to-even on binary floats; the two agree
    except on exact decimal half-ties, which none of the verified facts
    depend on.
  * The bus is a record of the values readable at each endpoint this tick,
    plus per-service availability flags used by discovery and a
    `writes_fail` flag (a failed `SetValue` is caught and logged by
    `_set_dbus_value`; it leaves the bus value unchanged).  A `WriteEvent`
    records every attempted `SetValue` with its target and value.
  * Logging is not modelled; state fields that exist purely to throttle
    logging (`altitude_warning_logged`, `altitude_value_logged_after_warning`,
    `previous_gen_auto_current_state`) are carried faithfully but have no
    behavioural effect.  The `initial_*` snapshot fields of the source are
    logging-only and are omitted.
-/

namespace GenAutoCurrent

/-- Uncaught Python exception kinds relevant to the embedded code. -/
inductive PyErr
  | typeError
  | valueError
deriving DecidableEq, Repr

/-- A value as returned by a D-Bus `GetValue` call: a numeric scalar, an
array of numbers (`dbus.Array`), or some other non-numeric object. -/
inductive DVal
  | num (q : ℚ)
  | arr (l : List ℚ)
  | other
deriving DecidableEq, Repr

/-- Python `float(v)`: succeeds on a number, raises `TypeError` on an array
and `ValueError` on other non-numeric values. -/
def pyFloat : DVal → Except PyErr ℚ
  | .num q => .ok q
  | .arr _ => .error .typeError
  | .other => .error .valueError

/-- Truncation toward zero, as Python `int()` applied to a number. -/
def truncQ (q : ℚ) : ℤ := if 0 ≤ q then ⌊q⌋ else ⌈q⌉

/-- Python `int(v)`: truncates a number, raises on non-numeric values. -/
def pyInt : DVal → Except PyErr ℤ
  | .num q => .ok (truncQ q)
  | .arr _ => .error .typeError
  | .other => .error .valueError

/-- Python `(v * 9/5) + 32` on a raw D-Bus value: the temperature
conversion of `_update_outdoor_temperature` / `_update_generator_temperature`.
On a non-numeric value the expression raises (sequence repetition followed
by unsupported division, or an unsupported multiplication). -/
def c2f : DVal → Except PyErr ℚ
  | .num c => .ok (c * 9 / 5 + 32)
  | .arr _ => .error .typeError
  | .other => .error .typeError

/-- Python `v - r` on a raw D-Bus value `v` and a float `r`, as used by
`abs(current_generator_limit_setting - rounded_output)` in
`_perform_derating` and `abs(current_gen_limit - rounded_ac_limit)` in
`_sync_generator_limit_from_ac_input`: raises on a non-numeric `v`. -/
def sub_raw (v : DVal) (r : ℚ) : Except PyErr ℚ :=
  match v with
  | .num q => .ok (q - r)
  | .arr _ => .error .typeError
  | .other => .error .typeError

/-- Python `round(q, 1)` (rounding to one decimal place). -/
def round10 (q : ℚ) : ℚ := ((⌊10 * q + 1 / 2⌋ : ℤ) : ℚ) / 10

/- User-configurable constants of the source, verbatim. -/

def BASE_TEMPERATURE_THRESHOLD_F : ℚ := 77.0
def TEMP_COEFFICIENT : ℚ := 0.0065
def ALTITUDE_COEFFICIENT : ℚ := 0.00003
def BASE_GENERATOR_OUTPUT_AMPS : ℚ := 62.5
def OUTPUT_BUFFER : ℚ := 0.9
def HIGH_GENTEMP_THRESHOLD_F : ℚ := 222.0
def MEDIUM_GENTEMP_THRESHOLD_F : ℚ := 215.0
def HIGH_GENTEMP_REDUCTION : ℚ := 0.86
def MEDIUM_GENTEMP_REDUCTION : ℚ := 0.93
def DEFAULT_ALTITUDE_FEET : ℚ := 1000.0
def DEFAULT_GENERATOR_TEMP_F : ℚ := 180.0
def DEFAULT_OUTDOOR_TEMP_F : ℚ := 77.0
def GEN_AUTO_CURRENT_OFF : ℤ := 2
def GEN_AUTO_CURRENT_ON : ℤ := 3

/-- Transfer-switch raw state values meaning "generator supplying power"
(`GENERATOR_ON_VALUE = (12, 3)` in the source). -/
def GENERATOR_ON_VALUE : List ℚ := [12, 3]

/-- The two writable set-points of the system. -/
inductive Target
  | genLimit
  | acLimit
deriving DecidableEq, Repr

/-- One attempted `SetValue` call: which set-point and which value. -/
structure WriteEvent where
  target : Target
  value : ℚ
deriving DecidableEq, Repr

/-- The external world as observable during one tick: per-role service
availability (used by discovery) and the value readable at each endpoint.
`writes_fail` models `SetValue` calls failing (the failure is caught and
logged inside `_set_dbus_value`; the stored value is then unchanged). -/
structure Bus where
  vebus_avail : Bool
  outdoor_avail : Bool
  gentemp_avail : Bool
  gps_avail : Bool
  transfer_avail : Bool
  autocur_avail : Bool
  gen_limit : Option DVal
  ac_limit : Option DVal
  transfer_state : Option DVal
  auto_state : Option DVal
  outdoor_c : Option DVal
  altitude_raw : Option DVal
  gentemp_c : Option DVal
  writes_fail : Bool
deriving DecidableEq, Repr

/-- The mutable attributes of `GeneratorDeratingMonitor`.  Service-name
attributes are modelled as resolution flags (the concrete bus names are
irrelevant to behaviour).  The settings service name is a constant in the
source and therefore always "resolved". -/
structure MState where
  vebus_service : Bool
  outdoor_temp_service_name : Bool
  generator_temp_service_name : Bool
  gps_service_name : Bool
  transfer_switch_service : Bool
  gen_auto_current_service : Bool
  gen_auto_current_state : Option ℤ
  previous_gen_auto_current_state : Option ℤ
  initial_derated_output_logged : Bool
  previous_ac_current_limit : Option ℚ
  previous_generator_current_limit_setting : Option ℚ
  outdoor_temp_fahrenheit : ℚ
  altitude_feet : ℚ
  generator_temp_fahrenheit : ℚ
  altitude_warning_logged : Bool
  altitude_value_logged_after_warning : Bool
deriving DecidableEq, Repr

/-- The state established by `GeneratorDeratingMonitor.__init__`. -/
def initMState : MState where
  vebus_service := false
  outdoor_temp_service_name := false
  generator_temp_service_name := false
  gps_service_name := false
  transfer_switch_service := false
  gen_auto_current_service := false
  gen_auto_current_state := none
  previous_gen_auto_current_state := none
  initial_derated_output_logged := false
  previous_ac_current_limit := none
  previous_generator_current_limit_setting := none
  outdoor_temp_fahrenheit := DEFAULT_OUTDOOR_TEMP_F
  altitude_feet := DEFAULT_ALTITUDE_FEET
  generator_temp_fahrenheit := DEFAULT_GENERATOR_TEMP_F
  altitude_warning_logged := false
  altitude_value_logged_after_warning := false

/-- `_get_dbus_value(service, path)`: returns `None` when the service is
unresolved; read errors at a resolved endpoint are already folded into the
bus field being `none`. -/
def get_dbus_value (resolved : Bool) (v : Option DVal) : Option DVal :=
  if resolved then v else none

/-- `_set_dbus_value` on a resolved service: records the attempt; the bus
value changes only if the write confirms. -/
def set_dbus_value (b : Bus) (t : Target) (v : ℚ) : Bus :=
  if b.writes_fail then b
  else
    match t with
    | .genLimit => { b with gen_limit := some (.num v) }
    | .acLimit => { b with ac_limit := some (.num v) }

/-- The re-discovery block at the top of `_periodic_monitoring` (and the
initial discovery of `_delayed_initialization`): each still-unresolved role
is probed once and becomes resolved exactly when the backing service is
available on the bus. -/
def find_unresolved_services (s : MState) (b : Bus) : MState :=
  { s with
    vebus_service := s.vebus_service || b.vebus_avail
    outdoor_temp_service_name := s.outdoor_temp_service_name || b.outdoor_avail
    generator_temp_service_name := s.generator_temp_service_name || b.gentemp_avail
    gps_service_name := s.gps_service_name || b.gps_avail
    transfer_switch_service := s.transfer_switch_service || b.transfer_avail
    gen_auto_current_service := s.gen_auto_current_service || b.autocur_avail }

/-- `_update_outdoor_temperature`: on a successful read convert Celsius to
Fahrenheit, otherwise keep the stored value.  (The `log_initial` /
`log_update` parameters of the source only select log lines and update the
logging-only `initial_outdoor_temp` snapshot.) -/
def update_outdoor_temperature (s : MState) (b : Bus) : Except PyErr MState :=
  if s.outdoor_temp_service_name then
    match get_dbus_value s.outdoor_temp_service_name b.outdoor_c with
    | some v =>
        match c2f v with
        | .ok f => .ok { s with outdoor_temp_fahrenheit := f }
        | .error e => .error e
    | none => .ok s
  else .ok s

/-- `_update_altitude`: a scalar or a non-empty array yields a new altitude
in feet; an empty array, a non-numeric value (caught `ValueError` /
`TypeError`) or a failed read keeps the stored value and only moves the
log-throttling flags.  This function never raises.  (In the one
`log_initial` call of `_read_initial_values` the source leaves the two
log-throttling flags untouched on success; the flags are logging-only, so
the periodic variant is used for both call sites.) -/
def update_altitude (s : MState) (b : Bus) : MState :=
  if s.gps_service_name then
    match get_dbus_value s.gps_service_name b.altitude_raw with
    | some (.num m) =>
        { s with altitude_feet := m * 3.28084,
                 altitude_warning_logged := false,
                 altitude_value_logged_after_warning := true }
    | some (.arr (m :: _)) =>
        { s with altitude_feet := m * 3.28084,
                 altitude_warning_logged := false,
                 altitude_value_logged_after_warning := true }
    | some (.arr []) =>
        { s with altitude_warning_logged := true,
                 altitude_value_logged_after_warning := false }
    | some .other =>
        { s with altitude_warning_logged := true,
                 altitude_value_logged_after_warning := false }
    | none =>
        { s with altitude_warning_logged := true,
                 altitude_value_logged_after_warning := false }
  else { s with altitude_value_logged_after_warning := false }

/-- `_update_generator_temperature`: same pattern as the outdoor sensor. -/
def update_generator_temperature (s : MState) (b : Bus) : Except PyErr MState :=
  if s.generator_temp_service_name then
    match get_dbus_value s.generator_temp_service_name b.gentemp_c with
    | some v =>
        match c2f v with
        | .ok f => .ok { s with generator_temp_fahrenheit := f }
        | .error e => .error e
    | none => .ok s
  else .ok s

/-- `_update_gen_auto_current_state` with `initial_read=False` (the periodic
call): on a successful read, `int(state)` becomes the current state; on a
detected change the previous-state field receives the old current state. -/
def update_gen_auto_current_state (s : MState) (b : Bus) : Except PyErr MState :=
  if s.gen_auto_current_service then
    match get_dbus_value s.gen_auto_current_service b.auto_state with
    | some v =>
        match pyInt v with
        | .ok n =>
            if some n ≠ s.previous_gen_auto_current_state then
              .ok { s with previous_gen_auto_current_state := s.gen_auto_current_state,
                           gen_auto_current_state := some n }
            else
              .ok { s with gen_auto_current_state := some n }
        | .error e => .error e
    | none => .ok s
  else .ok s

/-- `_update_gen_auto_current_state` with `initial_read=True` (called once
from `_read_initial_values`): both state fields are seeded from the read. -/
def update_gen_auto_current_state_initial (s : MState) (b : Bus) : Except PyErr MState :=
  if s.gen_auto_current_service then
    match get_dbus_value s.gen_auto_current_service b.auto_state with
    | some v =>
        match pyInt v with
        | .ok n =>
            .ok { s with gen_auto_current_state := some n,
                         previous_gen_auto_current_state := some n }
        | .error e => .error e
    | none => .ok s
  else .ok s

/-- `_is_generator_running`: a fresh read of the transfer-switch state; the
Python membership test `state in GENERATOR_ON_VALUE` is false for `None`,
arrays and other non-numeric values and never raises. -/
def is_generator_running (s : MState) (b : Bus) : Bool :=
  if s.transfer_switch_service then
    match get_dbus_value s.transfer_switch_service b.transfer_state with
    | some (.num q) => decide (q ∈ GENERATOR_ON_VALUE)
    | _ => false
  else false

/-- `calculate_derating_factor`.  The source's `is not None` guards are
vacuous: the three fields are initialised to numeric defaults and only ever
assigned numbers, so the arguments are plain rationals here. -/
def calculate_derating_factor (temperature_fahrenheit altitude_feet
    generator_temperature_fahrenheit : ℚ) : ℚ :=
  let temperature_multiplier : ℚ :=
    if temperature_fahrenheit > BASE_TEMPERATURE_THRESHOLD_F then
      max 0 (1 - (temperature_fahrenheit - BASE_TEMPERATURE_THRESHOLD_F) * TEMP_COEFFICIENT)
    else 1
  let altitude_multiplier : ℚ := max 0 (1 - altitude_feet * ALTITUDE_COEFFICIENT)
  let generator_temp_multiplier : ℚ :=
    if generator_temperature_fahrenheit ≥ HIGH_GENTEMP_THRESHOLD_F then
      HIGH_GENTEMP_REDUCTION
    else if generator_temperature_fahrenheit ≥ MEDIUM_GENTEMP_THRESHOLD_F then
      MEDIUM_GENTEMP_REDUCTION
    else 1
  temperature_multiplier * altitude_multiplier * generator_temp_multiplier * OUTPUT_BUFFER

/-- `_perform_derating` (step 3): compute the derated amps, round to one
decimal, and write the generator-limit setting unconditionally on the first
ever derating pass, and afterwards only when the stored setting is missing
or differs by more than 0.01 A.  The outer `is not None` guard of the
source is vacuous (see `calculate_derating_factor`).  The trackers
`previous_*` are deliberately not updated here. -/
def perform_derating (s : MState) (b : Bus) :
    Except PyErr (MState × Bus × List WriteEvent) :=
  let derating_factor := calculate_derating_factor s.outdoor_temp_fahrenheit
      s.altitude_feet s.generator_temp_fahrenheit
  let derated_output_amps := BASE_GENERATOR_OUTPUT_AMPS * derating_factor
  let rounded_output := round10 derated_output_amps
  let current_generator_limit_setting := b.gen_limit
  if s.initial_derated_output_logged = false then
    .ok ({ s with initial_derated_output_logged := true },
         set_dbus_value b .genLimit rounded_output,
         [⟨.genLimit, rounded_output⟩])
  else
    match current_generator_limit_setting with
    | none =>
        .ok (s, set_dbus_value b .genLimit rounded_output,
             [⟨.genLimit, rounded_output⟩])
    | some v =>
        match sub_raw v rounded_output with
        | .ok d =>
            if |d| > 0.01 then
              .ok (s, set_dbus_value b .genLimit rounded_output,
                   [⟨.genLimit, rounded_output⟩])
            else .ok (s, b, [])
        | .error e => .error e

/-- `_sync_generator_limit_to_ac_input` (step 1): with the generator
running and the inverter/charger resolved, push the (rounded) generator
limit to the AC-input limit whenever no previous generator limit is
recorded or it differs from the rounded value by more than 0.01 A; on a
write both previous-value trackers are set to the written value. -/
def sync_generator_limit_to_ac_input (s : MState) (b : Bus) :
    Except PyErr (MState × Bus × List WriteEvent) :=
  if s.vebus_service && is_generator_running s b then
    match b.gen_limit with
    | some v =>
        match pyFloat v with
        | .ok q =>
            let rounded_gen_limit := round10 q
            match s.previous_generator_current_limit_setting with
            | none =>
                .ok ({ s with previous_ac_current_limit := some rounded_gen_limit,
                              previous_generator_current_limit_setting := some rounded_gen_limit },
                     set_dbus_value b .acLimit rounded_gen_limit,
                     [⟨.acLimit, rounded_gen_limit⟩])
            | some p =>
                if |p - rounded_gen_limit| > 0.01 then
                  .ok ({ s with previous_ac_current_limit := some rounded_gen_limit,
                                previous_generator_current_limit_setting := some rounded_gen_limit },
                       set_dbus_value b .acLimit rounded_gen_limit,
                       [⟨.acLimit, rounded_gen_limit⟩])
                else .ok (s, b, [])
        | .error e => .error e
    | none => .ok (s, b, [])
  else .ok (s, b, [])

/-- `_sync_generator_limit_from_ac_input` (step 2): with the generator
running and the inverter/charger resolved, a change of the AC-input limit
against the previous-AC tracker (more than 0.01 A, or no tracker yet) is
pushed to the generator limit when the stored generator limit is missing or
differs by more than 0.01 A from the rounded AC value; the previous-AC
tracker is updated on every detected change, the previous-generator tracker
only when the write is issued. -/
def sync_generator_limit_from_ac_input (s : MState) (b : Bus) :
    Except PyErr (MState × Bus × List WriteEvent) :=
  if s.vebus_service && is_generator_running s b then
    match get_dbus_value s.vebus_service b.ac_limit with
    | some v =>
        match pyFloat v with
        | .ok q =>
            let rounded_ac_limit := round10 q
            if (match s.previous_ac_current_limit with
                | none => true
                | some a => decide (|rounded_ac_limit - a| > 0.01)) then
              match b.gen_limit with
              | none =>
                  .ok ({ s with previous_generator_current_limit_setting := some rounded_ac_limit,
                                previous_ac_current_limit := some rounded_ac_limit },
                       set_dbus_value b .genLimit rounded_ac_limit,
                       [⟨.genLimit, rounded_ac_limit⟩])
              | some gv =>
                  match sub_raw gv rounded_ac_limit with
                  | .ok d =>
                      if |d| > 0.01 then
                        .ok ({ s with previous_generator_current_limit_setting := some rounded_ac_limit,
                                      previous_ac_current_limit := some rounded_ac_limit },
                             set_dbus_value b .genLimit rounded_ac_limit,
                             [⟨.genLimit, rounded_ac_limit⟩])
                      else
                        .ok ({ s with previous_ac_current_limit := some rounded_ac_limit }, b, [])
                  | .error e => .error e
            else .ok (s, b, [])
        | .error e => .error e
    | none => .ok (s, b, [])
  else .ok (s, b, [])

/-- The sensor/state refresh block of `_periodic_monitoring`: re-discovery
of unresolved services followed by the four update calls, in source
order. -/
def update_phase (s : MState) (b : Bus) : Except PyErr MState :=
  let s0 := find_unresolved_services s b
  match update_outdoor_temperature s0 b with
  | .error e => .error e
  | .ok s1 =>
      let s2 := update_altitude s1 b
      match update_generator_temperature s2 b with
      | .error e => .error e
      | .ok s3 => update_gen_auto_current_state s3 b

/-- `_periodic_monitoring`: one full tick.  Steps 1, 2, 3 run in order;
step 2 is gated on the generator running and auto-mode OFF (state 2),
step 3 on auto-mode ON (state 3).  The result collects every attempted
write of the tick. -/
def periodic_monitoring (s : MState) (b : Bus) :
    Except PyErr (MState × Bus × List WriteEvent) :=
  match update_phase s b with
  | .error e => .error e
  | .ok s1 =>
      match sync_generator_limit_to_ac_input s1 b with
      | .error e => .error e
      | .ok (s2, b2, w2) =>
          match (if is_generator_running s2 b2 = true ∧
                    s2.gen_auto_current_state = some GEN_AUTO_CURRENT_OFF then
                   sync_generator_limit_from_ac_input s2 b2
                 else .ok (s2, b2, [])) with
          | .error e => .error e
          | .ok (s3, b3, w3) =>
              match (if s3.gen_auto_current_state = some GEN_AUTO_CURRENT_ON then
                       perform_derating s3 b3
                     else .ok (s3, b3, [])) with
              | .error e => .error e
              | .ok (s4, b4, w4) => .ok (s4, b4, w2 ++ w3 ++ w4)

/-- `_read_initial_values`: the one-shot seeding pass of the startup phase
(sensor reads plus initial reads of the two set-points into the
previous-value trackers). -/
def read_initial_values (s : MState) (b : Bus) : Except PyErr MState :=
  match update_outdoor_temperature s b with
  | .error e => .error e
  | .ok s1 =>
      let s2 := update_altitude s1 b
      match update_generator_temperature s2 b with
      | .error e => .error e
      | .ok s3 =>
          match update_gen_auto_current_state_initial s3 b with
          | .error e => .error e
          | .ok s4 =>
              let s5 : Except PyErr MState :=
                match b.gen_limit with
                | some v =>
                    match pyFloat v with
                    | .ok q =>
                        .ok { s4 with
                              previous_generator_current_limit_setting := some (round10 q) }
                    | .error e => .error e
                | none => .ok s4
              match s5 with
              | .error e => .error e
              | .ok s6 =>
                  match get_dbus_value s6.vebus_service b.ac_limit with
                  | some v =>
                      match pyFloat v with
                      | .ok q =>
                          .ok { s6 with previous_ac_current_limit := some (round10 q) }
                      | .error e => .error e
                  | none => .ok s6

/-- `_delayed_initialization`: one discovery attempt for every role from the
freshly constructed state, then the initial value reads. -/
def delayed_initialization (b : Bus) : Except PyErr MState :=
  read_initial_values (find_unresolved_services initMState b) b

/-- True when a bus field carries a scalar value or nothing: the shapes the
non-altitude code paths handle without raising. -/
def scalar_or_none : Option DVal → Bool
  | some (.arr _) => false
  | some .other => false
  | _ => true

/-- A bus whose scalar-typed endpoints (both set-points, the auto-mode
state, and the two temperatures) indeed carry scalars when they carry
anything.  The altitude and transfer-switch endpoints may carry any shape:
the source tolerates arbitrary shapes there. -/
def WFBus (b : Bus) : Bool :=
  scalar_or_none b.gen_limit && scalar_or_none b.ac_limit &&
  scalar_or_none b.auto_state && scalar_or_none b.outdoor_c &&
  scalar_or_none b.gentemp_c

/-- A run of periodic ticks with no external interference: the bus evolves
only through the controller's own writes.  Component `2.2` of entry `n + 1`
is the write list of the `(n+1)`-st tick.  (The error fallback keeps the
pre-tick state; it is unreachable in the runs this development quantifies
over.) -/
def run_ticks (s : MState) (b : Bus) : Nat → MState × Bus × List WriteEvent
  | 0 => (s, b, [])
  | n + 1 =>
      let p := run_ticks s b n
      match periodic_monitoring p.1 p.2.1 with
      | .ok r => r
      | .error _ => (p.1, p.2.1, [])

/-- A run of periodic ticks in which an external actor rewrites the
AC-input limit to the fixed value `v` before every tick (the
anti-oscillation scenario of the spec). -/
def run_ticks_ac_forced (v : ℚ) (s : MState) (b : Bus) :
    Nat → MState × Bus × List WriteEvent
  | 0 => (s, b, [])
  | n + 1 =>
      let p := run_ticks_ac_forced v s b n
      match periodic_monitoring p.1 { p.2.1 with ac_limit := some (.num v) } with
      | .ok r => r
      | .error _ => (p.1, p.2.1, [])

/-- A full process run against a per-tick world `bs`: startup
initialisation against `bs 0`, then one periodic tick against `bs (n+1)`
for every `n`.  `none` marks a run killed by an uncaught exception. -/
def run_from_start (bs : Nat → Bus) : Nat → Option MState
  | 0 =>
      match delayed_initialization (bs 0) with
      | .ok s => some s
      | .error _ => none
  | n + 1 =>
      match run_from_start bs n with
      | some s =>
          match periodic_monitoring s (bs (n + 1)) with
          | .ok r => some r.1
          | .error _ => none
      | none => none

/- Derived total descriptions of the update phase, used as a rewriting
normal form in the proofs below; `update_phase_eval` proves them equal to
the source translation on well-formed buses. -/

/-- Outdoor-temperature field after `_update_outdoor_temperature`. -/
def outdoorNext (s : MState) (b : Bus) : ℚ :=
  if s.outdoor_temp_service_name then
    match b.outdoor_c with
    | some (.num c) => c * 9 / 5 + 32
    | _ => s.outdoor_temp_fahrenheit
  else s.outdoor_temp_fahrenheit

/-- Altitude field after `_update_altitude`. -/
def altNext (s : MState) (b : Bus) : ℚ :=
  if s.gps_service_name then
    match b.altitude_raw with
    | some (.num m) => m * 3.28084
    | some (.arr (m :: _)) => m * 3.28084
    | _ => s.altitude_feet
  else s.altitude_feet

/-- First log-throttling flag after `_update_altitude`. -/
def altWarnNext (s : MState) (b : Bus) : Bool :=
  if s.gps_service_name then
    match b.altitude_raw with
    | some (.num _) => false
    | some (.arr (_ :: _)) => false
    | _ => true
  else s.altitude_warning_logged

/-- Second log-throttling flag after `_update_altitude`. -/
def altValNext (s : MState) (b : Bus) : Bool :=
  if s.gps_service_name then
    match b.altitude_raw with
    | some (.num _) => true
    | some (.arr (_ :: _)) => true
    | _ => false
  else false

/-- Generator-temperature field after `_update_generator_temperature`. -/
def genTempNext (s : MState) (b : Bus) : ℚ :=
  if s.generator_temp_service_name then
    match b.gentemp_c with
    | some (.num c) => c * 9 / 5 + 32
    | _ => s.generator_temp_fahrenheit
  else s.generator_temp_fahrenheit

/-- Auto-mode state after `_update_gen_auto_current_state`. -/
def autoNext (s : MState) (b : Bus) : Option ℤ :=
  if s.gen_auto_current_service then
    match b.auto_state with
    | some (.num k) => some (truncQ k)
    | _ => s.gen_auto_current_state
  else s.gen_auto_current_state

/-- Previous auto-mode state after `_update_gen_auto_current_state`. -/
def autoPrevNext (s : MState) (b : Bus) : Option ℤ :=
  if s.gen_auto_current_service then
    match b.auto_state with
    | some (.num k) =>
        if some (truncQ k) ≠ s.previous_gen_auto_current_state then
          s.gen_auto_current_state
        else s.previous_gen_auto_current_state
    | _ => s.previous_gen_auto_current_state
  else s.previous_gen_auto_current_state

/-- The state after the whole refresh block of `_periodic_monitoring`,
written as a chain of structure updates mirroring the four stages. -/
def updateNext (s : MState) (b : Bus) : MState :=
  let s0 := find_unresolved_services s b
  let s1 := { s0 with outdoor_temp_fahrenheit := outdoorNext s0 b }
  let s2 := { s1 with altitude_feet := altNext s1 b,
                      altitude_warning_logged := altWarnNext s1 b,
                      altitude_value_logged_after_warning := altValNext s1 b }
  let s3 := { s2 with generator_temp_fahrenheit := genTempNext s2 b }
  { s3 with gen_auto_current_state := autoNext s3 b,
            previous_gen_auto_current_state := autoPrevNext s3 b }

/- Definitions written from the spec's wording of the derating formula, to
be compared against `calculate_derating_factor` (claim C3). -/

/-- Modelled from the spec: the temperature multiplier of section 4.2. -/
def spec_temp_mult (t : ℚ) : ℚ :=
  if t > 77.0 then max 0 (1 - (t - 77.0) * 0.0065) else 1

/-- Modelled from the spec: the altitude multiplier of section 4.2. -/
def spec_alt_mult (a : ℚ) : ℚ := max 0 (1 - a * 0.00003)

/-- Modelled from the spec: the generator-temperature multiplier of section
4.2 (high tier checked before medium, inclusive lower bounds). -/
def spec_gen_mult (g : ℚ) : ℚ :=
  if g ≥ 222.0 then 0.86 else if g ≥ 215.0 then 0.93 else 1

/- Predicates used by the temporal arguments below. -/

/-- The change-detection test of step 2, as the source evaluates it. -/
def acChange (s : MState) (q : ℚ) : Bool :=
  match s.previous_ac_current_limit with
  | none => true
  | some a => decide (|round10 q - a| > 0.01)


/-- The common guard of the two sync steps: inverter/charger resolved and
generator detected running. -/
def Guard (s : MState) (b : Bus) : Bool :=
  s.vebus_service && is_generator_running s b

/-- Step 1 is quiescent: whenever the stored generator limit is a number,
the previous-generator tracker is recorded and within tolerance of its
rounding. -/
def SettledGen (s : MState) (b : Bus) : Prop :=
  ∀ q : ℚ, b.gen_limit = some (.num q) →
    ∃ p, s.previous_generator_current_limit_setting = some p ∧
      |p - round10 q| ≤ 0.01

/-- Step 2 detects no change: whenever the AC-input limit is a number, the
previous-AC tracker is recorded and within tolerance of its rounding. -/
def SettledAc (s : MState) (b : Bus) : Prop :=
  ∀ q : ℚ, b.ac_limit = some (.num q) →
    ∃ a, s.previous_ac_current_limit = some a ∧ |round10 q - a| ≤ 0.01

/-- Discovery is a no-op: every available service is already resolved. -/
def FlagsAbsorbed (s : MState) (b : Bus) : Prop :=
  (s.vebus_service || b.vebus_avail) = s.vebus_service ∧
  (s.outdoor_temp_service_name || b.outdoor_avail) = s.outdoor_temp_service_name ∧
  (s.generator_temp_service_name || b.gentemp_avail) = s.generator_temp_service_name ∧
  (s.gps_service_name || b.gps_avail) = s.gps_service_name ∧
  (s.transfer_switch_service || b.transfer_avail) = s.transfer_switch_service ∧
  (s.gen_auto_current_service || b.autocur_avail) = s.gen_auto_current_service

/-- Refreshing the auto-mode state from this bus does not change it. -/
def AutoStable (s : MState) (b : Bus) : Prop :=
  (updateNext s b).gen_auto_current_state = s.gen_auto_current_state

/-- Refreshing the environmental sample from this bus does not change it. -/
def EnvStable (s : MState) (b : Bus) : Prop :=
  (updateNext s b).outdoor_temp_fahrenheit = s.outdoor_temp_fahrenheit ∧
  (updateNext s b).altitude_feet = s.altitude_feet ∧
  (updateNext s b).generator_temp_fahrenheit = s.generator_temp_fahrenheit

/-- The rounded derated output the derating step would write from the
current environmental sample. -/
def rStar (s : MState) : ℚ :=
  round10 (BASE_GENERATOR_OUTPUT_AMPS * calculate_derating_factor
    s.outdoor_temp_fahrenheit s.altitude_feet s.generator_temp_fahrenheit)

/-- Step 3 is quiescent: the first derating write already happened and the
stored generator limit is a number within tolerance of the target. -/
def DerateSettled (s : MState) (b : Bus) : Prop :=
  s.initial_derated_output_logged = true ∧
  ∃ g, b.gen_limit = some (.num g) ∧ |g - rStar s| ≤ 0.01

/-- Quiescence invariant for a tick in the auto-mode-not-ON regime: the
bus is well-formed, writes confirm, discovery and the auto-mode refresh
are no-ops, auto-mode is not ON, and both sync steps are settled (each
under its own gate). -/
def InvOff (s : MState) (b : Bus) : Prop :=
  WFBus b = true ∧ b.writes_fail = false ∧ FlagsAbsorbed s b ∧
  AutoStable s b ∧ s.gen_auto_current_state ≠ some GEN_AUTO_CURRENT_ON ∧
  (Guard s b = true → SettledGen s b) ∧
  (Guard s b = true ∧ s.gen_auto_current_state = some GEN_AUTO_CURRENT_OFF →
    SettledAc s b)

/-- Partial invariant after the first tick of the auto-ON scenario:
everything of the quiescent auto-ON invariant except step-1 settledness. -/
def InvOnCore (s : MState) (b : Bus) : Prop :=
  WFBus b = true ∧ b.writes_fail = false ∧ FlagsAbsorbed s b ∧
  AutoStable s b ∧ s.gen_auto_current_state = some GEN_AUTO_CURRENT_ON ∧
  Guard s b = true ∧ EnvStable s b ∧ DerateSettled s b

/-- Quiescence invariant for the auto-ON (derating) regime with the
generator running. -/
def InvOn (s : MState) (b : Bus) : Prop :=
  InvOnCore s b ∧ SettledGen s b

/- Concrete states and buses used for counterexamples and witnesses. -/

/-- A bus with no services available and no readable values. -/
def emptyBus : Bus where
  vebus_avail := false
  outdoor_avail := false
  gentemp_avail := false
  gps_avail := false
  transfer_avail := false
  autocur_avail := false
  gen_limit := none
  ac_limit := none
  transfer_state := none
  auto_state := none
  outdoor_c := none
  altitude_raw := none
  gentemp_c := none
  writes_fail := false

/-- Concrete controller state: inverter/charger, transfer switch and
auto-mode input resolved, auto-mode ON, both trackers settled at 50 A,
default environment, first derating write still pending. -/
def exS : MState where
  vebus_service := true
  outdoor_temp_service_name := false
  generator_temp_service_name := false
  gps_service_name := false
  transfer_switch_service := true
  gen_auto_current_service := true
  gen_auto_current_state := some 3
  previous_gen_auto_current_state := some 3
  initial_derated_output_logged := false
  previous_ac_current_limit := some 50
  previous_generator_current_limit_setting := some 50
  outdoor_temp_fahrenheit := 77
  altitude_feet := 1000
  generator_temp_fahrenheit := 180
  altitude_warning_logged := false
  altitude_value_logged_after_warning := false

/-- Concrete bus matching `exS`: generator supplying power (transfer state
12), auto-mode input reading 3 (ON), both set-points at 50 A. -/
def exB : Bus :=
  { emptyBus with gen_limit := some (.num 50), ac_limit := some (.num 50),
                  transfer_state := some (.num 12), auto_state := some (.num 3) }

/-- `exS` after its first tick: only the first-derating-write flag moved. -/
def exS1 : MState := { exS with initial_derated_output_logged := true }

/-- `exB` after the first tick of `exS`: the derating write landed in the
generator-limit setting. -/
def exB1 : Bus := { exB with gen_limit := some (.num 54.6) }

/-- State for the step-1 write-condition counterexample: no previous AC
limit recorded, previous generator tracker equal to the stored generator
limit. -/
def c4S : MState :=
  { exS with previous_ac_current_limit := none, previous_generator_current_limit_setting := some 10 }

/-- Bus for the step-1 write-condition counterexample. -/
def c4B : Bus := { exB with gen_limit := some (.num 10) }

/-- State with the outdoor-temperature endpoint resolved, used for the
malformed-value counterexample. -/
def c9S : MState := { initMState with outdoor_temp_service_name := true }

/-- Bus carrying a malformed (empty-array) value at the outdoor-temperature
endpoint. -/
def c9B : Bus := { emptyBus with outdoor_c := some (.arr []) }

/-- `exS` with auto-mode OFF (state 2): the settled auto-OFF regime. -/
def c2S : MState :=
  { exS with gen_auto_current_state := some 2, previous_gen_auto_current_state := some 2 }

/-- `exB` with the auto-mode input reading 2 (OFF). -/
def c2B : Bus := { exB with auto_state := some (.num 2) }

end GenAutoCurrent

namespace GenAutoCurrent

/- Arithmetic facts about one-decimal rounding. -/

/-- Characterisation of `round10` through floor bounds. -/
theorem round10_eq (q : ℚ) (k : ℤ) (h1 : (k : ℚ) ≤ 10 * q + 1 / 2)
    (h2 : 10 * q + 1 / 2 < k + 1) : round10 q = (k : ℚ) / 10 := by
  rw [round10, Int.floor_eq_iff.mpr ⟨h1, h2⟩]

/-- Any rational within 0.01 of a tenth-multiple rounds to that multiple. -/
theorem round10_near (k : ℤ) (g : ℚ) (h : |g - (k : ℚ) / 10| ≤ 0.01) :
    round10 g = (k : ℚ) / 10 := by
  rw [abs_le] at h
  refine round10_eq g k ?_ ?_
  · nlinarith [h.1]
  · nlinarith [h.2]

/-- `round10` always returns a tenth-multiple. -/
theorem round10_tenth (q : ℚ) : ∃ k : ℤ, round10 q = (k : ℚ) / 10 :=
  ⟨⌊10 * q + 1 / 2⌋, rfl⟩

/-- Rounding is idempotent. -/
theorem round10_idem (q : ℚ) : round10 (round10 q) = round10 q := by
  obtain ⟨k, hk⟩ := round10_tenth q
  rw [hk, round10_near k _ (by simp; norm_num)]

/- Projection lemmas for the refresh block normal form. -/

theorem updateNext_vebus (s : MState) (b : Bus) :
    (updateNext s b).vebus_service = (s.vebus_service || b.vebus_avail) := rfl

theorem updateNext_outdoor_flag (s : MState) (b : Bus) :
    (updateNext s b).outdoor_temp_service_name =
      (s.outdoor_temp_service_name || b.outdoor_avail) := rfl

theorem updateNext_gentemp_flag (s : MState) (b : Bus) :
    (updateNext s b).generator_temp_service_name =
      (s.generator_temp_service_name || b.gentemp_avail) := rfl

theorem updateNext_gps_flag (s : MState) (b : Bus) :
    (updateNext s b).gps_service_name = (s.gps_service_name || b.gps_avail) := rfl

theorem updateNext_transfer (s : MState) (b : Bus) :
    (updateNext s b).transfer_switch_service =
      (s.transfer_switch_service || b.transfer_avail) := rfl

theorem updateNext_autocur_flag (s : MState) (b : Bus) :
    (updateNext s b).gen_auto_current_service =
      (s.gen_auto_current_service || b.autocur_avail) := rfl

theorem updateNext_prev_ac (s : MState) (b : Bus) :
    (updateNext s b).previous_ac_current_limit = s.previous_ac_current_limit := rfl

theorem updateNext_prev_gen (s : MState) (b : Bus) :
    (updateNext s b).previous_generator_current_limit_setting =
      s.previous_generator_current_limit_setting := rfl

theorem updateNext_initial (s : MState) (b : Bus) :
    (updateNext s b).initial_derated_output_logged =
      s.initial_derated_output_logged := rfl

theorem updateNext_auto (s : MState) (b : Bus) :
    (updateNext s b).gen_auto_current_state =
      (if s.gen_auto_current_service || b.autocur_avail then
        match b.auto_state with
        | some (.num k) => some (truncQ k)
        | _ => s.gen_auto_current_state
      else s.gen_auto_current_state) := rfl

theorem updateNext_outdoor (s : MState) (b : Bus) :
    (updateNext s b).outdoor_temp_fahrenheit =
      (if s.outdoor_temp_service_name || b.outdoor_avail then
        match b.outdoor_c with
        | some (.num c) => c * 9 / 5 + 32
        | _ => s.outdoor_temp_fahrenheit
      else s.outdoor_temp_fahrenheit) := rfl

theorem updateNext_altitude (s : MState) (b : Bus) :
    (updateNext s b).altitude_feet =
      (if s.gps_service_name || b.gps_avail then
        match b.altitude_raw with
        | some (.num m) => m * 3.28084
        | some (.arr (m :: _)) => m * 3.28084
        | _ => s.altitude_feet
      else s.altitude_feet) := rfl

theorem updateNext_gentemp (s : MState) (b : Bus) :
    (updateNext s b).generator_temp_fahrenheit =
      (if s.generator_temp_service_name || b.gentemp_avail then
        match b.gentemp_c with
        | some (.num c) => c * 9 / 5 + 32
        | _ => s.generator_temp_fahrenheit
      else s.generator_temp_fahrenheit) := rfl

/- Evaluation of the four update stages and of the whole refresh block. -/

theorem update_outdoor_temperature_eval (s : MState) (b : Bus)
    (h : scalar_or_none b.outdoor_c = true) :
    update_outdoor_temperature s b =
      .ok { s with outdoor_temp_fahrenheit := outdoorNext s b } := by
  obtain ⟨sv, so, sg, sp, st, sa, cur, prv, ini, pac, pgl, ot, al, gt, wl, vl⟩ := s
  unfold update_outdoor_temperature outdoorNext get_dbus_value
  by_cases hf : so = true
  · rcases hv : b.outdoor_c with _ | v
    · simp [hf, hv]
    · rcases v with q | l | _ <;> simp_all [scalar_or_none, c2f]
  · simp [hf]

theorem update_altitude_eval (s : MState) (b : Bus) :
    update_altitude s b =
      { s with altitude_feet := altNext s b,
               altitude_warning_logged := altWarnNext s b,
               altitude_value_logged_after_warning := altValNext s b } := by
  obtain ⟨sv, so, sg, sp, st, sa, cur, prv, ini, pac, pgl, ot, al, gt, wl, vl⟩ := s
  unfold update_altitude altNext altWarnNext altValNext get_dbus_value
  by_cases hf : sp = true
  · rcases hv : b.altitude_raw with _ | v
    · simp [hf, hv]
    · rcases v with q | l | _
      · simp [hf, hv]
      · rcases l with _ | ⟨m, l⟩ <;> simp [hf, hv]
      · simp [hf, hv]
  · simp [hf]

theorem update_generator_temperature_eval (s : MState) (b : Bus)
    (h : scalar_or_none b.gentemp_c = true) :
    update_generator_temperature s b =
      .ok { s with generator_temp_fahrenheit := genTempNext s b } := by
  obtain ⟨sv, so, sg, sp, st, sa, cur, prv, ini, pac, pgl, ot, al, gt, wl, vl⟩ := s
  unfold update_generator_temperature genTempNext get_dbus_value
  by_cases hf : sg = true
  · rcases hv : b.gentemp_c with _ | v
    · simp [hf, hv]
    · rcases v with q | l | _ <;> simp_all [scalar_or_none, c2f]
  · simp [hf]

theorem update_gen_auto_current_state_eval (s : MState) (b : Bus)
    (h : scalar_or_none b.auto_state = true) :
    update_gen_auto_current_state s b =
      .ok { s with gen_auto_current_state := autoNext s b,
                   previous_gen_auto_current_state := autoPrevNext s b } := by
  obtain ⟨sv, so, sg, sp, st, sa, cur, prv, ini, pac, pgl, ot, al, gt, wl, vl⟩ := s
  unfold update_gen_auto_current_state autoNext autoPrevNext get_dbus_value
  by_cases hf : sa = true
  · rcases hv : b.auto_state with _ | v
    · simp [hf, hv]
    · rcases v with q | l | _
      · by_cases hne : some (truncQ q) ≠ prv <;> simp_all [pyInt]
      · simp_all [scalar_or_none]
      · simp_all [scalar_or_none]
  · simp [hf]

/-- On a well-formed bus the whole refresh block succeeds and computes the
`updateNext` normal form. -/
theorem update_phase_eval (s : MState) (b : Bus) (hwf : WFBus b = true) :
    update_phase s b = .ok (updateNext s b) := by
  simp only [WFBus, Bool.and_eq_true] at hwf
  obtain ⟨⟨⟨⟨hg, ha⟩, hau⟩, ho⟩, hge⟩ := hwf
  simp only [update_phase, updateNext,
    update_outdoor_temperature_eval _ _ ho, update_altitude_eval,
    update_generator_temperature_eval _ _ hge,
    update_gen_auto_current_state_eval _ _ hau]

/- Facts about `_set_dbus_value`. -/

/-- A set-point write touches nothing but the two set-point values. -/
theorem set_dbus_value_fields (b : Bus) (t : Target) (v : ℚ) :
    (set_dbus_value b t v).vebus_avail = b.vebus_avail ∧
    (set_dbus_value b t v).outdoor_avail = b.outdoor_avail ∧
    (set_dbus_value b t v).gentemp_avail = b.gentemp_avail ∧
    (set_dbus_value b t v).gps_avail = b.gps_avail ∧
    (set_dbus_value b t v).transfer_avail = b.transfer_avail ∧
    (set_dbus_value b t v).autocur_avail = b.autocur_avail ∧
    (set_dbus_value b t v).transfer_state = b.transfer_state ∧
    (set_dbus_value b t v).auto_state = b.auto_state ∧
    (set_dbus_value b t v).outdoor_c = b.outdoor_c ∧
    (set_dbus_value b t v).altitude_raw = b.altitude_raw ∧
    (set_dbus_value b t v).gentemp_c = b.gentemp_c ∧
    (set_dbus_value b t v).writes_fail = b.writes_fail := by
  unfold set_dbus_value
  by_cases hw : b.writes_fail = true <;> cases t <;> simp [hw]

/-- A set-point write keeps the bus well-formed. -/
theorem set_dbus_value_WF (b : Bus) (t : Target) (v : ℚ) (h : WFBus b = true) :
    WFBus (set_dbus_value b t v) = true := by
  unfold set_dbus_value
  by_cases hw : b.writes_fail = true <;> cases t <;>
    simp_all [WFBus, scalar_or_none]

/- Case analysis of step 1 (`_sync_generator_limit_to_ac_input`). -/

/-- Step 1 does nothing when the inverter/charger is unresolved or the
generator is not running. -/
theorem sync_to_skip_guard (s : MState) (b : Bus)
    (h : (s.vebus_service && is_generator_running s b) = false) :
    sync_generator_limit_to_ac_input s b = .ok (s, b, []) := by
  simp [sync_generator_limit_to_ac_input, h]

/-- Step 1 does nothing when the generator-limit setting cannot be read. -/
theorem sync_to_none (s : MState) (b : Bus) (h : b.gen_limit = none) :
    sync_generator_limit_to_ac_input s b = .ok (s, b, []) := by
  simp [sync_generator_limit_to_ac_input, h]

/-- Step 1 writes when no previous generator limit is recorded. -/
theorem sync_to_write_none (s : MState) (b : Bus) (q : ℚ)
    (hg : (s.vebus_service && is_generator_running s b) = true)
    (hq : b.gen_limit = some (.num q))
    (hp : s.previous_generator_current_limit_setting = none) :
    sync_generator_limit_to_ac_input s b =
      .ok ({ s with previous_ac_current_limit := some (round10 q),
                    previous_generator_current_limit_setting := some (round10 q) },
           set_dbus_value b .acLimit (round10 q), [⟨.acLimit, round10 q⟩]) := by
  simp [sync_generator_limit_to_ac_input, hg, hq, hp, pyFloat]

/-- Step 1 writes when the rounded generator limit moved by more than
0.01 A against the previous-generator tracker. -/
theorem sync_to_write_diff (s : MState) (b : Bus) (q p : ℚ)
    (hg : (s.vebus_service && is_generator_running s b) = true)
    (hq : b.gen_limit = some (.num q))
    (hp : s.previous_generator_current_limit_setting = some p)
    (hd : |p - round10 q| > 0.01) :
    sync_generator_limit_to_ac_input s b =
      .ok ({ s with previous_ac_current_limit := some (round10 q),
                    previous_generator_current_limit_setting := some (round10 q) },
           set_dbus_value b .acLimit (round10 q), [⟨.acLimit, round10 q⟩]) := by
  simp [sync_generator_limit_to_ac_input, hg, hq, hp, pyFloat, hd]

/-- Step 1 does nothing when the rounded generator limit is within
tolerance of the previous-generator tracker. -/
theorem sync_to_noop (s : MState) (b : Bus) (q p : ℚ)
    (hg : (s.vebus_service && is_generator_running s b) = true)
    (hq : b.gen_limit = some (.num q))
    (hp : s.previous_generator_current_limit_setting = some p)
    (hd : ¬(|p - round10 q| > 0.01)) :
    sync_generator_limit_to_ac_input s b = .ok (s, b, []) := by
  simp [sync_generator_limit_to_ac_input, hg, hq, hp, pyFloat, hd]

/- Case analysis of step 3 (`_perform_derating`). -/

/-- The first ever derating pass writes unconditionally. -/
theorem derating_first (s : MState) (b : Bus)
    (h : s.initial_derated_output_logged = false) :
    perform_derating s b =
      .ok ({ s with initial_derated_output_logged := true },
           set_dbus_value b .genLimit (rStar s), [⟨.genLimit, rStar s⟩]) := by
  simp [perform_derating, h, rStar]

/-- A later derating pass writes when the stored setting is unreadable. -/
theorem derating_none (s : MState) (b : Bus)
    (hi : s.initial_derated_output_logged = true) (hg : b.gen_limit = none) :
    perform_derating s b =
      .ok (s, set_dbus_value b .genLimit (rStar s), [⟨.genLimit, rStar s⟩]) := by
  simp [perform_derating, hi, hg, rStar]

/-- A later derating pass writes when the stored setting differs from the
target by more than 0.01 A. -/
theorem derating_diff (s : MState) (b : Bus) (g : ℚ)
    (hi : s.initial_derated_output_logged = true)
    (hg : b.gen_limit = some (.num g)) (hd : |g - rStar s| > 0.01) :
    perform_derating s b =
      .ok (s, set_dbus_value b .genLimit (rStar s), [⟨.genLimit, rStar s⟩]) := by
  simp [perform_derating, hi, hg, sub_raw, rStar] at hd ⊢
  simp [hd]

/-- A later derating pass does nothing when the stored setting is within
tolerance of the target. -/
theorem derating_close (s : MState) (b : Bus) (g : ℚ)
    (hi : s.initial_derated_output_logged = true)
    (hg : b.gen_limit = some (.num g)) (hd : ¬(|g - rStar s| > 0.01)) :
    perform_derating s b = .ok (s, b, []) := by
  simp [perform_derating, hi, hg, sub_raw, rStar] at hd ⊢
  simp [hd]

/- Case analysis of step 2 (`_sync_generator_limit_from_ac_input`). -/

/-- Step 2 does nothing when the inverter/charger is unresolved or the
generator is not running. -/
theorem sync_from_skip_guard (s : MState) (b : Bus)
    (h : (s.vebus_service && is_generator_running s b) = false) :
    sync_generator_limit_from_ac_input s b = .ok (s, b, []) := by
  simp [sync_generator_limit_from_ac_input, h]

/-- Step 2 does nothing when the AC-input limit cannot be read. -/
theorem sync_from_none (s : MState) (b : Bus)
    (hv : s.vebus_service = true) (hr : is_generator_running s b = true)
    (ha : b.ac_limit = none) :
    sync_generator_limit_from_ac_input s b = .ok (s, b, []) := by
  simp [sync_generator_limit_from_ac_input, get_dbus_value, hv, hr, ha]

/-- Step 2 does nothing when the rounded AC-input limit is within
tolerance of the previous-AC tracker. -/
theorem sync_from_no_change (s : MState) (b : Bus) (q a : ℚ)
    (hv : s.vebus_service = true) (hr : is_generator_running s b = true)
    (ha : b.ac_limit = some (.num q))
    (hp : s.previous_ac_current_limit = some a)
    (hd : ¬(|round10 q - a| > 0.01)) :
    sync_generator_limit_from_ac_input s b = .ok (s, b, []) := by
  simp [sync_generator_limit_from_ac_input, get_dbus_value, hv, hr, ha, hp,
    pyFloat, hd]

/-- Step 2 writes on a detected change when the stored generator limit is
unreadable. -/
theorem sync_from_write_nogen (s : MState) (b : Bus) (q : ℚ)
    (hv : s.vebus_service = true) (hr : is_generator_running s b = true)
    (ha : b.ac_limit = some (.num q)) (hc : acChange s q = true)
    (hgl : b.gen_limit = none) :
    sync_generator_limit_from_ac_input s b =
      .ok ({ s with previous_generator_current_limit_setting := some (round10 q),
                    previous_ac_current_limit := some (round10 q) },
           set_dbus_value b .genLimit (round10 q), [⟨.genLimit, round10 q⟩]) := by
  unfold sync_generator_limit_from_ac_input
  rw [acChange] at hc
  simp [get_dbus_value, hv, hr, ha, hgl, pyFloat, hc]

/-- Step 2 writes on a detected change when the stored generator limit
differs by more than 0.01 A from the rounded AC value. -/
theorem sync_from_write_diff (s : MState) (b : Bus) (q g : ℚ)
    (hv : s.vebus_service = true) (hr : is_generator_running s b = true)
    (ha : b.ac_limit = some (.num q)) (hc : acChange s q = true)
    (hgl : b.gen_limit = some (.num g)) (hd : |g - round10 q| > 0.01) :
    sync_generator_limit_from_ac_input s b =
      .ok ({ s with previous_generator_current_limit_setting := some (round10 q),
                    previous_ac_current_limit := some (round10 q) },
           set_dbus_value b .genLimit (round10 q), [⟨.genLimit, round10 q⟩]) := by
  unfold sync_generator_limit_from_ac_input
  rw [acChange] at hc
  simp [get_dbus_value, hv, hr, ha, hgl, pyFloat, sub_raw, hc, hd]

/-- Step 2 only refreshes the previous-AC tracker on a detected change when
the stored generator limit is already within tolerance. -/
theorem sync_from_tracker (s : MState) (b : Bus) (q g : ℚ)
    (hv : s.vebus_service = true) (hr : is_generator_running s b = true)
    (ha : b.ac_limit = some (.num q)) (hc : acChange s q = true)
    (hgl : b.gen_limit = some (.num g)) (hd : ¬(|g - round10 q| > 0.01)) :
    sync_generator_limit_from_ac_input s b =
      .ok ({ s with previous_ac_current_limit := some (round10 q) }, b, []) := by
  unfold sync_generator_limit_from_ac_input
  rw [acChange] at hc
  simp [get_dbus_value, hv, hr, ha, hgl, pyFloat, sub_raw, hc, hd]

/- Congruence and stability helpers. -/

/-- The generator-running test only reads the transfer-switch flag and the
transfer-switch state. -/
theorem is_running_congr (s s' : MState) (b b' : Bus)
    (h1 : s'.transfer_switch_service = s.transfer_switch_service)
    (h2 : b'.transfer_state = b.transfer_state) :
    is_generator_running s' b' = is_generator_running s b := by
  simp [is_generator_running, get_dbus_value, h1, h2]

/-- Step-1 settledness only depends on the previous-generator tracker and
the stored generator limit. -/
theorem settledGen_congr (s s' : MState) (b b' : Bus)
    (h1 : s'.previous_generator_current_limit_setting =
      s.previous_generator_current_limit_setting)
    (h2 : b'.gen_limit = b.gen_limit) (h : SettledGen s b) :
    SettledGen s' b' := by
  intro q hq
  rw [h2] at hq
  obtain ⟨p, hp, hd⟩ := h q hq
  exact ⟨p, h1.trans hp, hd⟩

/-- Step-2 settledness only depends on the previous-AC tracker and the
stored AC-input limit. -/
theorem settledAc_congr (s s' : MState) (b b' : Bus)
    (h1 : s'.previous_ac_current_limit = s.previous_ac_current_limit)
    (h2 : b'.ac_limit = b.ac_limit) (h : SettledAc s b) :
    SettledAc s' b' := by
  intro q hq
  rw [h2] at hq
  obtain ⟨a, hp, hd⟩ := h q hq
  exact ⟨a, h1.trans hp, hd⟩

/-- With discovery absorbed, the refresh block keeps every service flag,
and hence the sync guard. -/
theorem updateNext_flags (s : MState) (b : Bus) (h : FlagsAbsorbed s b) :
    (updateNext s b).vebus_service = s.vebus_service ∧
    (updateNext s b).outdoor_temp_service_name = s.outdoor_temp_service_name ∧
    (updateNext s b).generator_temp_service_name = s.generator_temp_service_name ∧
    (updateNext s b).gps_service_name = s.gps_service_name ∧
    (updateNext s b).transfer_switch_service = s.transfer_switch_service ∧
    (updateNext s b).gen_auto_current_service = s.gen_auto_current_service := by
  obtain ⟨h1, h2, h3, h4, h5, h6⟩ := h
  exact ⟨(updateNext_vebus s b).trans h1, (updateNext_outdoor_flag s b).trans h2,
    (updateNext_gentemp_flag s b).trans h3, (updateNext_gps_flag s b).trans h4,
    (updateNext_transfer s b).trans h5, (updateNext_autocur_flag s b).trans h6⟩

/-- With discovery absorbed, the refresh block keeps the sync guard. -/
theorem guard_updateNext (s : MState) (b : Bus) (h : FlagsAbsorbed s b) :
    Guard (updateNext s b) b = Guard s b := by
  obtain ⟨hv, _, _, _, ht, _⟩ := updateNext_flags s b h
  rw [Guard, Guard, hv, is_running_congr s (updateNext s b) b b ht rfl]

/-- With discovery absorbed, a stable auto-mode state stays stable after
one more refresh. -/
theorem autoStable_next (s : MState) (b : Bus) (habs : FlagsAbsorbed s b)
    (hst : AutoStable s b) : AutoStable (updateNext s b) b := by
  obtain ⟨_, _, _, _, _, ha⟩ := updateNext_flags s b habs
  have hu : (updateNext s b).gen_auto_current_state = s.gen_auto_current_state := hst
  rw [AutoStable, updateNext_auto (updateNext s b) b, ha, hu, ← updateNext_auto s b]
  exact hst

/-- Step 1 is a no-op whenever it is settled under its own gate. -/
theorem sync_to_quiet (s : MState) (b : Bus)
    (hs : scalar_or_none b.gen_limit = true)
    (h : Guard s b = true → SettledGen s b) :
    sync_generator_limit_to_ac_input s b = .ok (s, b, []) := by
  by_cases hg : Guard s b = true
  · rcases hq : b.gen_limit with _ | v
    · exact sync_to_none s b hq
    · rcases v with q | l | _
      · obtain ⟨p, hp, hd⟩ := h hg q hq
        exact sync_to_noop s b q p hg hq hp (by simpa using hd)
      · rw [hq] at hs; simp [scalar_or_none] at hs
      · rw [hq] at hs; simp [scalar_or_none] at hs
  · exact sync_to_skip_guard s b (by simpa [Guard] using hg)

/-- Step 2 is a no-op whenever it is settled under its own gate. -/
theorem sync_from_quiet (s : MState) (b : Bus)
    (hs : scalar_or_none b.ac_limit = true)
    (h : Guard s b = true → SettledAc s b) :
    sync_generator_limit_from_ac_input s b = .ok (s, b, []) := by
  by_cases hg : Guard s b = true
  · obtain ⟨hv, hr⟩ : s.vebus_service = true ∧ is_generator_running s b = true := by
      simpa [Guard] using hg
    rcases hq : b.ac_limit with _ | v
    · exact sync_from_none s b hv hr hq
    · rcases v with q | l | _
      · obtain ⟨a, hp, hd⟩ := h hg q hq
        exact sync_from_no_change s b q a hv hr hq hp (by simpa using hd)
      · rw [hq] at hs; simp [scalar_or_none] at hs
      · rw [hq] at hs; simp [scalar_or_none] at hs
  · exact sync_from_skip_guard s b (by simpa [Guard] using hg)

/-- Step 3 is a no-op whenever it is settled. -/
theorem derating_quiet (s : MState) (b : Bus) (h : DerateSettled s b) :
    perform_derating s b = .ok (s, b, []) := by
  obtain ⟨hi, g, hg, hd⟩ := h
  exact derating_close s b g hi hg (by simpa using hd)

/-- Decomposition of bus well-formedness into its five endpoint facts. -/
theorem WF_parts (b : Bus) (h : WFBus b = true) :
    scalar_or_none b.gen_limit = true ∧ scalar_or_none b.ac_limit = true ∧
    scalar_or_none b.auto_state = true ∧ scalar_or_none b.outdoor_c = true ∧
    scalar_or_none b.gentemp_c = true := by
  simp only [WFBus, Bool.and_eq_true] at h
  exact ⟨h.1.1.1.1, h.1.1.1.2, h.1.1.2, h.1.2, h.2⟩

/-- One tick from a quiescent not-ON state: no write is attempted, the bus
is untouched, and the invariant persists. -/
theorem invOff_tick (s : MState) (b : Bus) (h : InvOff s b) :
    periodic_monitoring s b = .ok (updateNext s b, b, []) ∧
      InvOff (updateNext s b) b := by
  obtain ⟨hwf, hwr, habs, hauto, hnot3, hgen, hac⟩ := h
  obtain ⟨hsg, hsa, hsau, hso, hsge⟩ := WF_parts b hwf
  have hflags := updateNext_flags s b habs
  have hg1 : Guard (updateNext s b) b = Guard s b := guard_updateNext s b habs
  have hprevg := updateNext_prev_gen s b
  have hpreva := updateNext_prev_ac s b
  have hau1 : (updateNext s b).gen_auto_current_state = s.gen_auto_current_state :=
    hauto
  have hsync1 : sync_generator_limit_to_ac_input (updateNext s b) b =
      .ok (updateNext s b, b, []) :=
    sync_to_quiet _ b hsg
      (fun hg => settledGen_congr s _ b b hprevg rfl (hgen (hg1 ▸ hg)))
  have hnot3' : ¬((updateNext s b).gen_auto_current_state =
      some GEN_AUTO_CURRENT_ON) := by
    rw [hau1]; exact hnot3
  have hstep : periodic_monitoring s b = .ok (updateNext s b, b, []) := by
    by_cases hgate : is_generator_running (updateNext s b) b = true ∧
        (updateNext s b).gen_auto_current_state = some GEN_AUTO_CURRENT_OFF
    · have h2 : sync_generator_limit_from_ac_input (updateNext s b) b =
          .ok (updateNext s b, b, []) :=
        sync_from_quiet _ b hsa
          (fun hg => settledAc_congr s _ b b hpreva rfl
            (hac ⟨hg1 ▸ hg, hau1 ▸ hgate.2⟩))
      simp only [periodic_monitoring, update_phase_eval s b hwf, hsync1,
        if_pos hgate, h2, if_neg hnot3', List.append_nil]
    · simp only [periodic_monitoring, update_phase_eval s b hwf, hsync1,
        if_neg hgate, if_neg hnot3', List.append_nil]
  refine ⟨hstep, hwf, hwr, ?_, autoStable_next s b habs hauto, hnot3', ?_, ?_⟩
  · obtain ⟨h1, h2, h3, h4, h5, h6⟩ := hflags
    obtain ⟨a1, a2, a3, a4, a5, a6⟩ := habs
    exact ⟨by rw [h1, a1], by rw [h2, a2], by rw [h3, a3],
      by rw [h4, a4], by rw [h5, a5], by rw [h6, a6]⟩
  · intro hg
    exact settledGen_congr s _ b b hprevg rfl (hgen (hg1 ▸ hg))
  · intro ⟨hg, h2⟩
    exact settledAc_congr s _ b b hpreva rfl (hac ⟨hg1 ▸ hg, hau1 ▸ h2⟩)

/- Per-target effect of a write on the two set-point values. -/

theorem set_acLimit_gen (b : Bus) (v : ℚ) :
    (set_dbus_value b .acLimit v).gen_limit = b.gen_limit := by
  unfold set_dbus_value; split <;> rfl

theorem set_genLimit_ac (b : Bus) (v : ℚ) :
    (set_dbus_value b .genLimit v).ac_limit = b.ac_limit := by
  unfold set_dbus_value; split <;> rfl

theorem set_acLimit_ac (b : Bus) (v : ℚ) (hw : b.writes_fail = false) :
    (set_dbus_value b .acLimit v).ac_limit = some (.num v) := by
  unfold set_dbus_value; rw [hw]; rfl

theorem set_genLimit_gen (b : Bus) (v : ℚ) (hw : b.writes_fail = false) :
    (set_dbus_value b .genLimit v).gen_limit = some (.num v) := by
  unfold set_dbus_value; rw [hw]; rfl

/- Input/output contracts of the three steps, collecting everything the
temporal arguments need about one invocation. -/

/-- Contract of step 1: it succeeds on a scalar-or-missing generator limit,
touches only the two previous-value trackers of the state and at most the
AC-input limit of the bus, emits only AC-limit write events, and leaves
step 1 settled whenever its guard held. -/
theorem sync_to_spec (s : MState) (b : Bus)
    (hs : scalar_or_none b.gen_limit = true) :
    ∃ s2 b2 w2, sync_generator_limit_to_ac_input s b = .ok (s2, b2, w2) ∧
      s2 = { s with
             previous_ac_current_limit := s2.previous_ac_current_limit,
             previous_generator_current_limit_setting :=
               s2.previous_generator_current_limit_setting } ∧
      (b2 = b ∨ ∃ r, b2 = set_dbus_value b .acLimit r) ∧
      (∀ e ∈ w2, e.target = Target.acLimit) ∧
      (Guard s b = true → SettledGen s2 b2) := by
  by_cases hg : (s.vebus_service && is_generator_running s b) = true
  · rcases hq : b.gen_limit with _ | v
    · refine ⟨s, b, [], sync_to_none s b hq, by rfl, .inl rfl, by simp, ?_⟩
      intro _ q hq2
      rw [hq] at hq2; cases hq2
    · rcases v with q | l | _
      · have hgen2 : ∀ s2 : MState,
            s2.previous_generator_current_limit_setting = some (round10 q) →
            SettledGen s2 (set_dbus_value b .acLimit (round10 q)) := by
          intro s2 hp q' hq'
          rw [set_acLimit_gen, hq] at hq'
          obtain rfl : q = q' := by injection hq' with h; injection h
          exact ⟨round10 q, hp, by simp; norm_num⟩
        rcases hp : s.previous_generator_current_limit_setting with _ | p
        · refine ⟨_, _, _, sync_to_write_none s b q hg hq hp, by rfl,
            .inr ⟨round10 q, rfl⟩, by simp, fun _ => hgen2 _ rfl⟩
        · by_cases hd : |p - round10 q| > 0.01
          · refine ⟨_, _, _, sync_to_write_diff s b q p hg hq hp hd, by rfl,
              .inr ⟨round10 q, rfl⟩, by simp, fun _ => hgen2 _ rfl⟩
          · refine ⟨s, b, [], sync_to_noop s b q p hg hq hp hd, by rfl,
              .inl rfl, by simp, ?_⟩
            intro _ q' hq'
            rw [hq] at hq'
            obtain rfl : q = q' := by injection hq' with h; injection h
            exact ⟨p, hp, by simpa using hd⟩
      · rw [hq] at hs; simp [scalar_or_none] at hs
      · rw [hq] at hs; simp [scalar_or_none] at hs
  · refine ⟨s, b, [], sync_to_skip_guard s b (by simpa using hg), by rfl,
      .inl rfl, by simp, ?_⟩
    intro hg2
    exact absurd hg2 (by simpa [Guard] using hg)

/-- Contract of step 2: it succeeds on scalar-or-missing set-point values,
touches only the two previous-value trackers of the state and at most the
generator limit of the bus, emits only generator-limit write events,
preserves step-1 settledness, and leaves step 2 settled whenever its guard
held. -/
theorem sync_from_spec (s : MState) (b : Bus)
    (hsa : scalar_or_none b.ac_limit = true)
    (hsg : scalar_or_none b.gen_limit = true)
    (hwr : b.writes_fail = false) :
    ∃ s3 b3 w3, sync_generator_limit_from_ac_input s b = .ok (s3, b3, w3) ∧
      s3 = { s with
             previous_ac_current_limit := s3.previous_ac_current_limit,
             previous_generator_current_limit_setting :=
               s3.previous_generator_current_limit_setting } ∧
      (b3 = b ∨ ∃ r, b3 = set_dbus_value b .genLimit r) ∧
      (∀ e ∈ w3, e.target = Target.genLimit) ∧
      (SettledGen s b → SettledGen s3 b3) ∧
      (Guard s b = true → SettledAc s3 b3) := by
  by_cases hg : (s.vebus_service && is_generator_running s b) = true
  · obtain ⟨hv, hr⟩ : s.vebus_service = true ∧ is_generator_running s b = true := by
      simpa using hg
    rcases hq : b.ac_limit with _ | v
    · refine ⟨s, b, [], sync_from_none s b hv hr hq, by rfl, .inl rfl, by simp,
        fun h => h, ?_⟩
      intro _ q hq2
      rw [hq] at hq2; cases hq2
    · rcases v with q | l | _
      · have hacq : ∀ s3 : MState, ∀ b3 : Bus,
            s3.previous_ac_current_limit = some (round10 q) →
            b3.ac_limit = b.ac_limit → SettledAc s3 b3 := by
          intro s3 b3 hp hb q' hq'
          rw [hb, hq] at hq'
          obtain rfl : q = q' := by injection hq' with h; injection h
          exact ⟨round10 q, hp, by simp; norm_num⟩
        by_cases hc : acChange s q = true
        · rcases hgl : b.gen_limit with _ | gv
          · refine ⟨_, _, _, sync_from_write_nogen s b q hv hr hq hc hgl, by rfl,
              .inr ⟨round10 q, rfl⟩, by simp, ?_, ?_⟩
            · intro _ q' hq'
              rw [set_genLimit_gen b _ hwr] at hq'
              obtain rfl : round10 q = q' := by injection hq' with h; injection h
              exact ⟨round10 q, rfl, by rw [round10_idem]; simp; norm_num⟩
            · exact fun _ => hacq _ _ rfl (set_genLimit_ac b _)
          · rcases gv with g | l | _
            · by_cases hd : |g - round10 q| > 0.01
              · refine ⟨_, _, _, sync_from_write_diff s b q g hv hr hq hc hgl hd,
                  by rfl, .inr ⟨round10 q, rfl⟩, by simp, ?_, ?_⟩
                · intro _ q' hq'
                  rw [set_genLimit_gen b _ hwr] at hq'
                  obtain rfl : round10 q = q' := by injection hq' with h; injection h
                  exact ⟨round10 q, rfl, by rw [round10_idem]; simp; norm_num⟩
                · exact fun _ => hacq _ _ rfl (set_genLimit_ac b _)
              · refine ⟨_, _, _, sync_from_tracker s b q g hv hr hq hc hgl hd,
                  by rfl, .inl rfl, by simp, ?_, ?_⟩
                · intro h
                  exact settledGen_congr s _ b b rfl rfl h
                · exact fun _ => hacq _ _ rfl rfl
            · rw [hgl] at hsg; simp [scalar_or_none] at hsg
            · rw [hgl] at hsg; simp [scalar_or_none] at hsg
        · have hc2 : ∃ a, s.previous_ac_current_limit = some a ∧
              ¬(|round10 q - a| > 0.01) := by
            rw [acChange] at hc
            rcases hp : s.previous_ac_current_limit with _ | a
            · rw [hp] at hc; simp at hc
            · rw [hp] at hc
              exact ⟨a, rfl, by simpa using hc⟩
          obtain ⟨a, hp, hd⟩ := hc2
          refine ⟨s, b, [], sync_from_no_change s b q a hv hr hq hp hd, by rfl,
            .inl rfl, by simp, fun h => h, ?_⟩
          intro _ q' hq'
          rw [hq] at hq'
          obtain rfl : q = q' := by injection hq' with h; injection h
          exact ⟨a, hp, by simpa using hd⟩
      · rw [hq] at hsa; simp [scalar_or_none] at hsa
      · rw [hq] at hsa; simp [scalar_or_none] at hsa
  · refine ⟨s, b, [], sync_from_skip_guard s b (by simpa using hg), by rfl,
      .inl rfl, by simp, fun h => h, ?_⟩
    intro hg2
    exact absurd hg2 (by simpa [Guard] using hg)

/-- Contract of step 3: it succeeds on a scalar-or-missing generator limit,
touches only the first-write flag of the state and at most the generator
limit of the bus, emits only generator-limit writes of the derating target,
marks the first write as done, and (when writes confirm) leaves the stored
generator limit within tolerance of the target. -/
theorem derating_spec (s : MState) (b : Bus)
    (hs : scalar_or_none b.gen_limit = true) :
    ∃ s4 b4 w4, perform_derating s b = .ok (s4, b4, w4) ∧
      s4 = { s with initial_derated_output_logged :=
               s4.initial_derated_output_logged } ∧
      (b4 = b ∨ b4 = set_dbus_value b .genLimit (rStar s)) ∧
      (∀ e ∈ w4, e.target = Target.genLimit ∧ e.value = rStar s) ∧
      s4.initial_derated_output_logged = true ∧
      (b.writes_fail = false →
        ∃ g, b4.gen_limit = some (.num g) ∧ |g - rStar s| ≤ 0.01) := by
  by_cases hi : s.initial_derated_output_logged = false
  · refine ⟨_, _, _, derating_first s b hi, by rfl, .inr rfl, by simp, rfl, ?_⟩
    intro hwr
    exact ⟨rStar s, set_genLimit_gen b _ hwr, by simp; norm_num⟩
  · rw [Bool.not_eq_false] at hi
    rcases hq : b.gen_limit with _ | v
    · refine ⟨_, _, _, derating_none s b hi hq, by rfl, .inr rfl, by simp, hi, ?_⟩
      intro hwr
      exact ⟨rStar s, set_genLimit_gen b _ hwr, by simp; norm_num⟩
    · rcases v with g | l | _
      · by_cases hd : |g - rStar s| > 0.01
        · refine ⟨_, _, _, derating_diff s b g hi hq hd, by rfl, .inr rfl,
            by simp, hi, ?_⟩
          intro hwr
          exact ⟨rStar s, set_genLimit_gen b _ hwr, by simp; norm_num⟩
        · refine ⟨s, b, [], derating_close s b g hi hq hd, by rfl, .inl rfl,
            by simp, hi, ?_⟩
          intro _
          exact ⟨g, hq, by simpa using hd⟩
      · rw [hq] at hs; simp [scalar_or_none] at hs
      · rw [hq] at hs; simp [scalar_or_none] at hs

/-- Common field facts for a bus reached by at most one set-point write. -/
theorem bus_step_facts (b b2 : Bus) (hwf : WFBus b = true)
    (h : b2 = b ∨ (∃ r, b2 = set_dbus_value b .acLimit r) ∨
      (∃ r, b2 = set_dbus_value b .genLimit r)) :
    b2.vebus_avail = b.vebus_avail ∧ b2.outdoor_avail = b.outdoor_avail ∧
    b2.gentemp_avail = b.gentemp_avail ∧ b2.gps_avail = b.gps_avail ∧
    b2.transfer_avail = b.transfer_avail ∧ b2.autocur_avail = b.autocur_avail ∧
    b2.transfer_state = b.transfer_state ∧ b2.auto_state = b.auto_state ∧
    b2.outdoor_c = b.outdoor_c ∧ b2.altitude_raw = b.altitude_raw ∧
    b2.gentemp_c = b.gentemp_c ∧ b2.writes_fail = b.writes_fail ∧
    WFBus b2 = true := by
  rcases h with rfl | ⟨r, rfl⟩ | ⟨r, rfl⟩
  · exact ⟨rfl, rfl, rfl, rfl, rfl, rfl, rfl, rfl, rfl, rfl, rfl, rfl, hwf⟩
  · obtain ⟨f1, f2, f3, f4, f5, f6, f7, f8, f9, f10, f11, f12⟩ :=
      set_dbus_value_fields b .acLimit r
    exact ⟨f1, f2, f3, f4, f5, f6, f7, f8, f9, f10, f11, f12,
      set_dbus_value_WF b .acLimit r hwf⟩
  · obtain ⟨f1, f2, f3, f4, f5, f6, f7, f8, f9, f10, f11, f12⟩ :=
      set_dbus_value_fields b .genLimit r
    exact ⟨f1, f2, f3, f4, f5, f6, f7, f8, f9, f10, f11, f12,
      set_dbus_value_WF b .genLimit r hwf⟩

/-- The derating target only reads the environmental sample. -/
theorem rStar_mk (u : MState) (x y : Option ℚ) (z : Bool) :
    rStar { u with previous_ac_current_limit := x,
                   previous_generator_current_limit_setting := y,
                   initial_derated_output_logged := z } = rStar u := rfl

/-- Master decomposition of one tick on a well-formed bus with confirming
writes: the tick succeeds, the final state is the refreshed state plus
tracker/flag changes, the bus keeps every non-set-point field, and each
gated step leaves its settledness behind. -/
theorem periodic_spec (s : MState) (b : Bus) (hwf : WFBus b = true)
    (hwr : b.writes_fail = false) :
    ∃ s' b' w, periodic_monitoring s b = .ok (s', b', w) ∧
      s' = { updateNext s b with
             previous_ac_current_limit := s'.previous_ac_current_limit,
             previous_generator_current_limit_setting :=
               s'.previous_generator_current_limit_setting,
             initial_derated_output_logged :=
               s'.initial_derated_output_logged } ∧
      (b'.vebus_avail = b.vebus_avail ∧ b'.outdoor_avail = b.outdoor_avail ∧
       b'.gentemp_avail = b.gentemp_avail ∧ b'.gps_avail = b.gps_avail ∧
       b'.transfer_avail = b.transfer_avail ∧ b'.autocur_avail = b.autocur_avail ∧
       b'.transfer_state = b.transfer_state ∧ b'.auto_state = b.auto_state ∧
       b'.outdoor_c = b.outdoor_c ∧ b'.altitude_raw = b.altitude_raw ∧
       b'.gentemp_c = b.gentemp_c ∧ b'.writes_fail = b.writes_fail) ∧
      WFBus b' = true ∧
      ((updateNext s b).gen_auto_current_state ≠ some GEN_AUTO_CURRENT_ON →
        Guard (updateNext s b) b = true → SettledGen s' b') ∧
      (Guard (updateNext s b) b = true ∧
        (updateNext s b).gen_auto_current_state = some GEN_AUTO_CURRENT_OFF →
        SettledAc s' b') ∧
      ((updateNext s b).gen_auto_current_state = some GEN_AUTO_CURRENT_ON →
        s'.initial_derated_output_logged = true ∧
        ∃ g, b'.gen_limit = some (.num g) ∧
          |g - rStar (updateNext s b)| ≤ 0.01) := by
  obtain ⟨hsg, hsa, hsau, hso, hsge⟩ := WF_parts b hwf
  obtain ⟨s2, b2, w2, e1, sh1, bb1, wt1, stl1⟩ := sync_to_spec (updateNext s b) b hsg
  obtain ⟨g1, g2, g3, g4, g5, g6, g7, g8, g9, g10, g11, g12, gwf⟩ :=
    bus_step_facts b b2 hwf (by
      rcases bb1 with h | ⟨r, h⟩
      · exact .inl h
      · exact .inr (.inl ⟨r, h⟩))
  have hb2gen : b2.gen_limit = b.gen_limit := by
    rcases bb1 with rfl | ⟨r, rfl⟩
    · rfl
    · exact set_acLimit_gen b r
  have hw2 : b2.writes_fail = false := g12.trans hwr
  obtain ⟨hsg2, hsa2, _, _, _⟩ := WF_parts b2 gwf
  have hrun2 : is_generator_running s2 b2 =
      is_generator_running (updateNext s b) b :=
    is_running_congr (updateNext s b) s2 b b2 (by rw [sh1]) g7
  have hguard2 : Guard s2 b2 = Guard (updateNext s b) b := by
    rw [Guard, Guard, hrun2]
    have : s2.vebus_service = (updateNext s b).vebus_service := by rw [sh1]
    rw [this]
  have hauto2 : s2.gen_auto_current_state =
      (updateNext s b).gen_auto_current_state := by rw [sh1]
  have hinit2 : s2.initial_derated_output_logged =
      (updateNext s b).initial_derated_output_logged := by rw [sh1]
  have henv2 : s2.outdoor_temp_fahrenheit =
        (updateNext s b).outdoor_temp_fahrenheit ∧
      s2.altitude_feet = (updateNext s b).altitude_feet ∧
      s2.generator_temp_fahrenheit =
        (updateNext s b).generator_temp_fahrenheit := by
    refine ⟨?_, ?_, ?_⟩ <;> rw [sh1]
  by_cases hgate2 : is_generator_running s2 b2 = true ∧
      s2.gen_auto_current_state = some GEN_AUTO_CURRENT_OFF
  · -- step 2 runs
    obtain ⟨s3, b3, w3, e2, sh2, bb2, wt2, pre2, stl2⟩ :=
      sync_from_spec s2 b2 hsa2 hsg2 hw2
    obtain ⟨k1, k2, k3, k4, k5, k6, k7, k8, k9, k10, k11, k12, kwf⟩ :=
      bus_step_facts b2 b3 gwf (by
        rcases bb2 with h | ⟨r, h⟩
        · exact .inl h
        · exact .inr (.inr ⟨r, h⟩))
    have hauto3 : s3.gen_auto_current_state = s2.gen_auto_current_state := by
      rw [sh2]
    have hnot3 : ¬(s3.gen_auto_current_state = some GEN_AUTO_CURRENT_ON) := by
      rw [hauto3, hgate2.2]
      simp [GEN_AUTO_CURRENT_OFF, GEN_AUTO_CURRENT_ON]
    have hstep : periodic_monitoring s b = .ok (s3, b3, w2 ++ w3) := by
      simp only [periodic_monitoring, update_phase_eval s b hwf, e1,
        if_pos hgate2, e2, if_neg hnot3, List.append_nil]
    refine ⟨s3, b3, w2 ++ w3, hstep, ?_, ?_, kwf, ?_, ?_, ?_⟩
    · rw [sh2, sh1]
    · exact ⟨k1.trans g1, k2.trans g2, k3.trans g3, k4.trans g4, k5.trans g5,
        k6.trans g6, k7.trans g7, k8.trans g8, k9.trans g9, k10.trans g10,
        k11.trans g11, k12.trans g12⟩
    · intro _ hg
      exact pre2 (stl1 hg)
    · intro ⟨hg, _⟩
      exact stl2 (by rw [hguard2]; exact hg)
    · intro hon
      exact absurd (hauto2.trans hon) (by
        rw [hgate2.2]
        simp [GEN_AUTO_CURRENT_OFF, GEN_AUTO_CURRENT_ON])
  · -- step 2 skipped
    by_cases hon : s2.gen_auto_current_state = some GEN_AUTO_CURRENT_ON
    · -- derating runs
      obtain ⟨s4, b4, w4, e3, sh3, bb3, wt3, hini4, hnear4⟩ :=
        derating_spec s2 b2 hsg2
      obtain ⟨m1, m2, m3, m4, m5, m6, m7, m8, m9, m10, m11, m12, mwf⟩ :=
        bus_step_facts b2 b4 gwf (by
          rcases bb3 with h | h
          · exact .inl h
          · exact .inr (.inr ⟨rStar s2, h⟩))
      have hstep : periodic_monitoring s b = .ok (s4, b4, w2 ++ w4) := by
        simp only [periodic_monitoring, update_phase_eval s b hwf, e1,
          if_neg hgate2, if_pos hon, e3]
        simp
      have hrs : rStar s2 = rStar (updateNext s b) := by
        conv_lhs => rw [sh1]
        exact rStar_mk (updateNext s b) _ _ _
      refine ⟨s4, b4, w2 ++ w4, hstep, ?_, ?_, mwf, ?_, ?_, ?_⟩
      · rw [sh3, sh1]
      · exact ⟨m1.trans g1, m2.trans g2, m3.trans g3, m4.trans g4, m5.trans g5,
          m6.trans g6, m7.trans g7, m8.trans g8, m9.trans g9, m10.trans g10,
          m11.trans g11, m12.trans g12⟩
      · intro hno _
        exact absurd (hauto2.symm.trans hon : _ = some GEN_AUTO_CURRENT_ON) hno
      · intro ⟨_, h2⟩
        exact absurd (h2.symm.trans (hauto2.symm.trans hon))
          (by simp [GEN_AUTO_CURRENT_OFF, GEN_AUTO_CURRENT_ON])
      · intro _
        refine ⟨hini4, ?_⟩
        rw [← hrs]
        exact hnear4 hw2
    · -- derating skipped too
      have hstep : periodic_monitoring s b = .ok (s2, b2, w2) := by
        simp only [periodic_monitoring, update_phase_eval s b hwf, e1,
          if_neg hgate2, if_neg hon, List.append_nil]
      refine ⟨s2, b2, w2, hstep, by rw [sh1], ⟨g1, g2, g3, g4, g5, g6, g7, g8, g9,
        g10, g11, g12⟩, gwf, ?_, ?_, ?_⟩
      · intro _ hg
        exact stl1 hg
      · intro ⟨hg, h2⟩
        obtain ⟨_, hr⟩ : (updateNext s b).vebus_service = true ∧
            is_generator_running (updateNext s b) b = true := by
          simpa [Guard] using hg
        exact absurd ⟨by rw [hrun2]; exact hr, hauto2.trans h2⟩ hgate2
      · intro h3
        exact absurd (hauto2.trans h3) hon

/-- Discovery-absorption for a successor state whose flags come from one
discovery pass over the same availability. -/
theorem flagsAbsorbed_of (s' : MState) (b' : Bus) (s : MState) (b : Bus)
    (h1 : s'.vebus_service = (s.vebus_service || b.vebus_avail))
    (h2 : s'.outdoor_temp_service_name =
      (s.outdoor_temp_service_name || b.outdoor_avail))
    (h3 : s'.generator_temp_service_name =
      (s.generator_temp_service_name || b.gentemp_avail))
    (h4 : s'.gps_service_name = (s.gps_service_name || b.gps_avail))
    (h5 : s'.transfer_switch_service =
      (s.transfer_switch_service || b.transfer_avail))
    (h6 : s'.gen_auto_current_service =
      (s.gen_auto_current_service || b.autocur_avail))
    (a1 : b'.vebus_avail = b.vebus_avail) (a2 : b'.outdoor_avail = b.outdoor_avail)
    (a3 : b'.gentemp_avail = b.gentemp_avail) (a4 : b'.gps_avail = b.gps_avail)
    (a5 : b'.transfer_avail = b.transfer_avail)
    (a6 : b'.autocur_avail = b.autocur_avail) :
    FlagsAbsorbed s' b' := by
  refine ⟨?_, ?_, ?_, ?_, ?_, ?_⟩
  · rw [h1, a1, Bool.or_assoc, Bool.or_self]
  · rw [h2, a2, Bool.or_assoc, Bool.or_self]
  · rw [h3, a3, Bool.or_assoc, Bool.or_self]
  · rw [h4, a4, Bool.or_assoc, Bool.or_self]
  · rw [h5, a5, Bool.or_assoc, Bool.or_self]
  · rw [h6, a6, Bool.or_assoc, Bool.or_self]

/-- Auto-mode stability for a successor state that carries the refreshed
auto-mode state, against a bus with the same auto-mode endpoint. -/
theorem autoStable_of (s' : MState) (b' : Bus) (s : MState) (b : Bus)
    (hflag : s'.gen_auto_current_service =
      (s.gen_auto_current_service || b.autocur_avail))
    (hauto : s'.gen_auto_current_state = (updateNext s b).gen_auto_current_state)
    (hbav : b'.autocur_avail = b.autocur_avail)
    (hbst : b'.auto_state = b.auto_state) :
    AutoStable s' b' := by
  rw [AutoStable, updateNext_auto s' b', hflag, hbav, hbst, Bool.or_assoc,
    Bool.or_self, hauto, updateNext_auto s b]
  by_cases hc : (s.gen_auto_current_service || b.autocur_avail) = true
  · rcases hv : b.auto_state with _ | v
    · simp [hc]
    · rcases v with k | l | _ <;> simp [hc]
  · simp [hc]

/-- Environmental-sample stability for a successor state that carries the
refreshed sample, against a bus with the same sensor endpoints. -/
theorem envStable_of (s' : MState) (b' : Bus) (s : MState) (b : Bus)
    (hf1 : s'.outdoor_temp_service_name =
      (s.outdoor_temp_service_name || b.outdoor_avail))
    (hf2 : s'.gps_service_name = (s.gps_service_name || b.gps_avail))
    (hf3 : s'.generator_temp_service_name =
      (s.generator_temp_service_name || b.gentemp_avail))
    (he1 : s'.outdoor_temp_fahrenheit = (updateNext s b).outdoor_temp_fahrenheit)
    (he2 : s'.altitude_feet = (updateNext s b).altitude_feet)
    (he3 : s'.generator_temp_fahrenheit =
      (updateNext s b).generator_temp_fahrenheit)
    (a1 : b'.outdoor_avail = b.outdoor_avail) (a2 : b'.gps_avail = b.gps_avail)
    (a3 : b'.gentemp_avail = b.gentemp_avail)
    (v1 : b'.outdoor_c = b.outdoor_c) (v2 : b'.altitude_raw = b.altitude_raw)
    (v3 : b'.gentemp_c = b.gentemp_c) :
    EnvStable s' b' := by
  refine ⟨?_, ?_, ?_⟩
  · rw [updateNext_outdoor s' b', hf1, a1, v1, Bool.or_assoc, Bool.or_self,
      he1, updateNext_outdoor s b]
    by_cases hc : (s.outdoor_temp_service_name || b.outdoor_avail) = true
    · rcases hv : b.outdoor_c with _ | v
      · simp [hc]
      · rcases v with k | l | _ <;> simp [hc]
    · simp [hc]
  · rw [updateNext_altitude s' b', hf2, a2, v2, Bool.or_assoc, Bool.or_self,
      he2, updateNext_altitude s b]
    by_cases hc : (s.gps_service_name || b.gps_avail) = true
    · rcases hv : b.altitude_raw with _ | v
      · simp [hc]
      · rcases v with k | l | _
        · simp [hc]
        · rcases l with _ | ⟨m, l⟩ <;> simp [hc]
        · simp [hc]
    · simp [hc]
  · rw [updateNext_gentemp s' b', hf3, a3, v3, Bool.or_assoc, Bool.or_self,
      he3, updateNext_gentemp s b]
    by_cases hc : (s.generator_temp_service_name || b.gentemp_avail) = true
    · rcases hv : b.gentemp_c with _ | v
      · simp [hc]
      · rcases v with k | l | _ <;> simp [hc]
    · simp [hc]

/-- The derating target only depends on the environmental sample. -/
theorem rStar_congr (s' s : MState)
    (h1 : s'.outdoor_temp_fahrenheit = s.outdoor_temp_fahrenheit)
    (h2 : s'.altitude_feet = s.altitude_feet)
    (h3 : s'.generator_temp_fahrenheit = s.generator_temp_fahrenheit) :
    rStar s' = rStar s := by
  rw [rStar, rStar, h1, h2, h3]

/-- Any tick on a well-formed bus with confirming writes whose outcome is
not in the auto-ON regime lands in the quiescent not-ON invariant. -/
theorem invOff_establish (s : MState) (b : Bus) (s' : MState) (b' : Bus)
    (w : List WriteEvent) (hwf : WFBus b = true) (hwr : b.writes_fail = false)
    (he : periodic_monitoring s b = .ok (s', b', w))
    (hnot3 : s'.gen_auto_current_state ≠ some GEN_AUTO_CURRENT_ON) :
    InvOff s' b' := by
  obtain ⟨t, c, v, hstep, hsh, hbus, hwfc, hgen, hac, _⟩ := periodic_spec s b hwf hwr
  obtain ⟨rfl, rfl, rfl⟩ : s' = t ∧ b' = c ∧ w = v := by
    have := he.symm.trans hstep
    simp only [Except.ok.injEq, Prod.mk.injEq] at this
    exact ⟨this.1, this.2.1, this.2.2⟩
  obtain ⟨a1, a2, a3, a4, a5, a6, a7, a8, a9, a10, a11, a12⟩ := hbus
  have hv1 : s'.vebus_service = (updateNext s b).vebus_service := by rw [hsh]
  have hv2 : s'.outdoor_temp_service_name =
      (updateNext s b).outdoor_temp_service_name := by rw [hsh]
  have hv3 : s'.generator_temp_service_name =
      (updateNext s b).generator_temp_service_name := by rw [hsh]
  have hv4 : s'.gps_service_name = (updateNext s b).gps_service_name := by rw [hsh]
  have hv5 : s'.transfer_switch_service =
      (updateNext s b).transfer_switch_service := by rw [hsh]
  have hv6 : s'.gen_auto_current_service =
      (updateNext s b).gen_auto_current_service := by rw [hsh]
  have hvau : s'.gen_auto_current_state =
      (updateNext s b).gen_auto_current_state := by rw [hsh]
  have hguard : Guard s' b' = Guard (updateNext s b) b := by
    rw [Guard, Guard, hv1,
      is_running_congr (updateNext s b) s' b b' (hv5.trans rfl) a7]
  refine ⟨hwfc, a12.trans hwr, ?_, ?_, hnot3, ?_, ?_⟩
  · exact flagsAbsorbed_of s' b' s b (hv1.trans (updateNext_vebus s b))
      (hv2.trans (updateNext_outdoor_flag s b))
      (hv3.trans (updateNext_gentemp_flag s b))
      (hv4.trans (updateNext_gps_flag s b))
      (hv5.trans (updateNext_transfer s b))
      (hv6.trans (updateNext_autocur_flag s b)) a1 a2 a3 a4 a5 a6
  · exact autoStable_of s' b' s b (hv6.trans (updateNext_autocur_flag s b))
      hvau a6 a8
  · intro hg
    exact hgen (fun hu => hnot3 (hvau.trans hu)) (hguard ▸ hg)
  · intro ⟨hg, h2⟩
    exact hac ⟨hguard ▸ hg, hvau.symm.trans h2⟩

/-- The first tick of the auto-ON running scenario establishes the core
auto-ON invariant. -/
theorem invOnCore_establish (s : MState) (b : Bus) (s' : MState) (b' : Bus)
    (w : List WriteEvent) (hwf : WFBus b = true) (hwr : b.writes_fail = false)
    (he : periodic_monitoring s b = .ok (s', b', w))
    (hguard : Guard (updateNext s b) b = true)
    (hon : (updateNext s b).gen_auto_current_state = some GEN_AUTO_CURRENT_ON) :
    InvOnCore s' b' := by
  obtain ⟨t, c, v, hstep, hsh, hbus, hwfc, _, _, hder⟩ := periodic_spec s b hwf hwr
  obtain ⟨rfl, rfl, rfl⟩ : s' = t ∧ b' = c ∧ w = v := by
    have := he.symm.trans hstep
    simp only [Except.ok.injEq, Prod.mk.injEq] at this
    exact ⟨this.1, this.2.1, this.2.2⟩
  obtain ⟨a1, a2, a3, a4, a5, a6, a7, a8, a9, a10, a11, a12⟩ := hbus
  have hv1 : s'.vebus_service = (updateNext s b).vebus_service := by rw [hsh]
  have hv2 : s'.outdoor_temp_service_name =
      (updateNext s b).outdoor_temp_service_name := by rw [hsh]
  have hv3 : s'.generator_temp_service_name =
      (updateNext s b).generator_temp_service_name := by rw [hsh]
  have hv4 : s'.gps_service_name = (updateNext s b).gps_service_name := by rw [hsh]
  have hv5 : s'.transfer_switch_service =
      (updateNext s b).transfer_switch_service := by rw [hsh]
  have hv6 : s'.gen_auto_current_service =
      (updateNext s b).gen_auto_current_service := by rw [hsh]
  have hvau : s'.gen_auto_current_state =
      (updateNext s b).gen_auto_current_state := by rw [hsh]
  have he1 : s'.outdoor_temp_fahrenheit =
      (updateNext s b).outdoor_temp_fahrenheit := by rw [hsh]
  have he2 : s'.altitude_feet = (updateNext s b).altitude_feet := by rw [hsh]
  have he3 : s'.generator_temp_fahrenheit =
      (updateNext s b).generator_temp_fahrenheit := by rw [hsh]
  have hguard2 : Guard s' b' = Guard (updateNext s b) b := by
    rw [Guard, Guard, hv1,
      is_running_congr (updateNext s b) s' b b' (hv5.trans rfl) a7]
  obtain ⟨hini, g, hbg, hng⟩ := hder hon
  refine ⟨hwfc, a12.trans hwr, ?_, ?_, hvau.trans hon, hguard2.trans hguard,
    ?_, hini, g, hbg, ?_⟩
  · exact flagsAbsorbed_of s' b' s b (hv1.trans (updateNext_vebus s b))
      (hv2.trans (updateNext_outdoor_flag s b))
      (hv3.trans (updateNext_gentemp_flag s b))
      (hv4.trans (updateNext_gps_flag s b))
      (hv5.trans (updateNext_transfer s b))
      (hv6.trans (updateNext_autocur_flag s b)) a1 a2 a3 a4 a5 a6
  · exact autoStable_of s' b' s b (hv6.trans (updateNext_autocur_flag s b))
      hvau a6 a8
  · exact envStable_of s' b' s b (hv2.trans (updateNext_outdoor_flag s b))
      (hv4.trans (updateNext_gps_flag s b))
      (hv3.trans (updateNext_gentemp_flag s b)) he1 he2 he3 a2 a4 a3 a9 a10 a11
  · rw [rStar_congr s' (updateNext s b) he1 he2 he3]
    exact hng

/-- One refresh pass always leaves the environmental sample stable. -/
theorem envStable_next (s : MState) (b : Bus) : EnvStable (updateNext s b) b :=
  envStable_of (updateNext s b) b s b (updateNext_outdoor_flag s b)
    (updateNext_gps_flag s b) (updateNext_gentemp_flag s b) rfl rfl rfl
    rfl rfl rfl rfl rfl rfl

/-- One tick from the quiescent auto-ON invariant: no write is attempted,
the bus is untouched, and the invariant persists. -/
theorem invOn_tick (s : MState) (b : Bus) (h : InvOn s b) :
    periodic_monitoring s b = .ok (updateNext s b, b, []) ∧
      InvOn (updateNext s b) b := by
  obtain ⟨⟨hwf, hwr, habs, hauto, hon, hguard, henv, hini, g, hbg, hng⟩, hgen⟩ := h
  obtain ⟨hsg, hsa, _, _, _⟩ := WF_parts b hwf
  have hprevg := updateNext_prev_gen s b
  have hau1 : (updateNext s b).gen_auto_current_state = some GEN_AUTO_CURRENT_ON :=
    hauto.trans hon
  have hsync1 : sync_generator_limit_to_ac_input (updateNext s b) b =
      .ok (updateNext s b, b, []) :=
    sync_to_quiet _ b hsg
      (fun _ => settledGen_congr s _ b b hprevg rfl hgen)
  have hgate2 : ¬(is_generator_running (updateNext s b) b = true ∧
      (updateNext s b).gen_auto_current_state = some GEN_AUTO_CURRENT_OFF) := by
    intro ⟨_, hx⟩
    exact absurd (hau1.symm.trans hx)
      (by simp [GEN_AUTO_CURRENT_OFF, GEN_AUTO_CURRENT_ON])
  have hders : DerateSettled (updateNext s b) b := by
    refine ⟨(updateNext_initial s b).trans hini, g, hbg, ?_⟩
    rw [rStar_congr (updateNext s b) s henv.1 henv.2.1 henv.2.2]
    exact hng
  have hderq : perform_derating (updateNext s b) b = .ok (updateNext s b, b, []) :=
    derating_quiet _ b hders
  have hstep : periodic_monitoring s b = .ok (updateNext s b, b, []) := by
    simp only [periodic_monitoring, update_phase_eval s b hwf, hsync1,
      if_neg hgate2, if_pos hau1, hderq, List.append_nil]
  refine ⟨hstep, ⟨hwf, hwr, ?_, autoStable_next s b habs hauto, hau1, ?_,
    envStable_next s b, hders⟩, settledGen_congr s _ b b hprevg rfl hgen⟩
  · exact flagsAbsorbed_of _ b s b (updateNext_vebus s b)
      (updateNext_outdoor_flag s b) (updateNext_gentemp_flag s b)
      (updateNext_gps_flag s b) (updateNext_transfer s b)
      (updateNext_autocur_flag s b) rfl rfl rfl rfl rfl rfl
  · exact (guard_updateNext s b habs).trans hguard

/-- One tick from the core auto-ON invariant: at most AC-limit writes are
attempted and the full auto-ON invariant is established. -/
theorem invOn_tick2 (s : MState) (b : Bus) (h : InvOnCore s b) :
    ∃ s' b' w, periodic_monitoring s b = .ok (s', b', w) ∧ InvOn s' b' ∧
      ∀ e ∈ w, e.target = Target.acLimit := by
  obtain ⟨hwf, hwr, habs, hauto, hon, hguard, henv, hini, g, hbg, hng⟩ := h
  obtain ⟨hsg, hsa, _, _, _⟩ := WF_parts b hwf
  have hg1 : Guard (updateNext s b) b = Guard s b := guard_updateNext s b habs
  obtain ⟨s2, b2, w2, e1, sh1, bb1, wt1, stl1⟩ := sync_to_spec (updateNext s b) b hsg
  obtain ⟨g1, g2, g3, g4, g5, g6, g7, g8, g9, g10, g11, g12, gwf⟩ :=
    bus_step_facts b b2 hwf (by
      rcases bb1 with h | ⟨r, h⟩
      · exact .inl h
      · exact .inr (.inl ⟨r, h⟩))
  have hb2gen : b2.gen_limit = b.gen_limit := by
    rcases bb1 with rfl | ⟨r, rfl⟩
    · rfl
    · exact set_acLimit_gen b r
  have hau2 : s2.gen_auto_current_state = some GEN_AUTO_CURRENT_ON := by
    rw [sh1]
    exact hauto.trans hon
  have hgate2 : ¬(is_generator_running s2 b2 = true ∧
      s2.gen_auto_current_state = some GEN_AUTO_CURRENT_OFF) := by
    intro ⟨_, hx⟩
    exact absurd (hau2.symm.trans hx)
      (by simp [GEN_AUTO_CURRENT_OFF, GEN_AUTO_CURRENT_ON])
  have henv2 : s2.outdoor_temp_fahrenheit = s.outdoor_temp_fahrenheit ∧
      s2.altitude_feet = s.altitude_feet ∧
      s2.generator_temp_fahrenheit = s.generator_temp_fahrenheit := by
    refine ⟨?_, ?_, ?_⟩ <;> (rw [sh1]; first | exact henv.1 | exact henv.2.1 |
      exact henv.2.2)
  have hrs2 : rStar s2 = rStar s := rStar_congr s2 s henv2.1 henv2.2.1 henv2.2.2
  have hini2 : s2.initial_derated_output_logged = true := by
    rw [sh1, updateNext_initial s b]
    exact hini
  have hbg2 : b2.gen_limit = some (.num g) := hb2gen.trans hbg
  have hderq : perform_derating s2 b2 = .ok (s2, b2, []) :=
    derating_close s2 b2 g hini2 hbg2
      (by rw [hrs2]; simpa using hng)
  have hstep : periodic_monitoring s b = .ok (s2, b2, w2) := by
    simp only [periodic_monitoring, update_phase_eval s b hwf, e1,
      if_neg hgate2, if_pos hau2, hderq, List.append_nil]
  have hst2 : s2.transfer_switch_service =
      (updateNext s b).transfer_switch_service := by rw [sh1]
  have hsv2 : s2.vebus_service = (updateNext s b).vebus_service := by rw [sh1]
  have hguard2 : Guard s2 b2 = Guard s b := by
    rw [Guard, Guard, is_running_congr s s2 b b2
      (hst2.trans ((updateNext_transfer s b).trans habs.2.2.2.2.1)) g7,
      hsv2.trans ((updateNext_vebus s b).trans habs.1)]
  refine ⟨s2, b2, w2, hstep, ⟨⟨gwf, g12.trans hwr, ?_, ?_, hau2,
    hguard2.trans hguard, ?_, hini2, g, hbg2, by rw [hrs2]; exact hng⟩,
    stl1 (hg1.trans hguard)⟩, wt1⟩
  · exact flagsAbsorbed_of s2 b2 s b
      (by rw [sh1]; exact updateNext_vebus s b)
      (by rw [sh1]; exact updateNext_outdoor_flag s b)
      (by rw [sh1]; exact updateNext_gentemp_flag s b)
      (by rw [sh1]; exact updateNext_gps_flag s b)
      (by rw [sh1]; exact updateNext_transfer s b)
      (by rw [sh1]; exact updateNext_autocur_flag s b) g1 g2 g3 g4 g5 g6
  · exact autoStable_of s2 b2 s b
      (by rw [sh1]; exact updateNext_autocur_flag s b) (by rw [sh1]) g6 g8
  · exact envStable_of s2 b2 s b
      (by rw [sh1]; exact updateNext_outdoor_flag s b)
      (by rw [sh1]; exact updateNext_gps_flag s b)
      (by rw [sh1]; exact updateNext_gentemp_flag s b)
      (by rw [sh1]) (by rw [sh1]) (by rw [sh1]) g2 g4 g3 g9 g10 g11

/-- Generator detected running forces the transfer-switch role resolved. -/
theorem is_running_transfer (s : MState) (b : Bus)
    (h : is_generator_running s b = true) :
    s.transfer_switch_service = true := by
  by_cases ht : s.transfer_switch_service = true
  · exact ht
  · rw [is_generator_running, if_neg ht] at h
    cases h

/-- Facts from a successful step 1: the stored auto-mode state is
untouched and every write event targets the AC-input limit. -/
theorem sync_to_ok_facts (s : MState) (b : Bus) (s2 : MState) (b2 : Bus)
    (w2 : List WriteEvent)
    (h : sync_generator_limit_to_ac_input s b = .ok (s2, b2, w2)) :
    s2.gen_auto_current_state = s.gen_auto_current_state ∧
      ∀ e ∈ w2, e.target = Target.acLimit := by
  by_cases hg : (s.vebus_service && is_generator_running s b) = true
  · rcases hq : b.gen_limit with _ | v
    · rw [sync_to_none s b hq] at h
      simp only [Except.ok.injEq, Prod.mk.injEq] at h
      rw [← h.1, ← h.2.2]
      exact ⟨rfl, by simp⟩
    · rcases v with q | l | _
      · rcases hp : s.previous_generator_current_limit_setting with _ | p
        · rw [sync_to_write_none s b q hg hq hp] at h
          simp only [Except.ok.injEq, Prod.mk.injEq] at h
          rw [← h.1, ← h.2.2]
          exact ⟨rfl, by simp⟩
        · by_cases hd : |p - round10 q| > 0.01
          · rw [sync_to_write_diff s b q p hg hq hp hd] at h
            simp only [Except.ok.injEq, Prod.mk.injEq] at h
            rw [← h.1, ← h.2.2]
            exact ⟨rfl, by simp⟩
          · rw [sync_to_noop s b q p hg hq hp hd] at h
            simp only [Except.ok.injEq, Prod.mk.injEq] at h
            rw [← h.1, ← h.2.2]
            exact ⟨rfl, by simp⟩
      · rw [sync_generator_limit_to_ac_input] at h
        simp [hg, hq, pyFloat] at h
      · rw [sync_generator_limit_to_ac_input] at h
        simp [hg, hq, pyFloat] at h
  · rw [sync_to_skip_guard s b (by simpa using hg)] at h
    simp only [Except.ok.injEq, Prod.mk.injEq] at h
    rw [← h.1, ← h.2.2]
    exact ⟨rfl, by simp⟩

/-- Forcing the AC-input limit to a number preserves the core auto-ON
invariant: nothing in it reads that endpoint. -/
theorem invOnCore_acSet (s : MState) (b : Bus) (v : ℚ) (h : InvOnCore s b) :
    InvOnCore s { b with ac_limit := some (.num v) } := by
  obtain ⟨hwf, hwr, habs, hauto, hon, hguard, henv, hder⟩ := h
  obtain ⟨p1, p2, p3, p4, p5⟩ := WF_parts b hwf
  refine ⟨?_, hwr, habs, hauto, hon, hguard, henv, hder⟩
  simp only [WFBus, Bool.and_eq_true]
  exact ⟨⟨⟨⟨p1, by simp [scalar_or_none]⟩, p3⟩, p4⟩, p5⟩

/-- Forcing the AC-input limit to a number preserves the quiescent auto-ON
invariant. -/
theorem invOn_acSet (s : MState) (b : Bus) (v : ℚ) (h : InvOn s b) :
    InvOn s { b with ac_limit := some (.num v) } :=
  ⟨invOnCore_acSet s b v h.1, h.2⟩

/-- Forcing the AC-input limit to a number keeps the bus well-formed. -/
theorem WF_acSet (b : Bus) (v : ℚ) (h : WFBus b = true) :
    WFBus { b with ac_limit := some (.num v) } = true := by
  obtain ⟨p1, p2, p3, p4, p5⟩ := WF_parts b h
  simp only [WFBus, Bool.and_eq_true]
  exact ⟨⟨⟨⟨p1, by simp [scalar_or_none]⟩, p3⟩, p4⟩, p5⟩

/-- With the auto-mode input resolved and reading the raw value 3, the
refreshed auto-mode state is ON. -/
theorem scenario_post_auto_on (s : MState) (b : Bus)
    (hsvc : s.gen_auto_current_service = true)
    (hast : b.auto_state = some (.num 3)) :
    (updateNext s b).gen_auto_current_state = some GEN_AUTO_CURRENT_ON := by
  rw [updateNext_auto, hsvc, hast]
  simp [truncQ, GEN_AUTO_CURRENT_ON]

/-- With the auto-mode input resolved and reading the raw value 2, the
refreshed auto-mode state is OFF. -/
theorem scenario_post_auto_off (s : MState) (b : Bus)
    (hsvc : s.gen_auto_current_service = true)
    (hast : b.auto_state = some (.num 2)) :
    (updateNext s b).gen_auto_current_state = some GEN_AUTO_CURRENT_OFF := by
  rw [updateNext_auto, hsvc, hast]
  simp [truncQ, GEN_AUTO_CURRENT_OFF]

/-- With the inverter/charger resolved and the generator detected running,
the guard still holds after one refresh pass. -/
theorem scenario_guard (s : MState) (b : Bus)
    (hveb : s.vebus_service = true)
    (hrun : is_generator_running s b = true) :
    Guard (updateNext s b) b = true := by
  have ht := is_running_transfer s b hrun
  have hcong : is_generator_running (updateNext s b) b =
      is_generator_running s b :=
    is_running_congr s (updateNext s b) b b
      (by rw [updateNext_transfer, ht]; simp [ht]) rfl
  rw [Guard, updateNext_vebus, hveb, hcong, hrun]
  simp

/-- Unfolding one tick of the plain run. -/
theorem run_ticks_step (s : MState) (b : Bus) (n : Nat) (s' : MState) (b' : Bus)
    (w' : List WriteEvent) (h : run_ticks s b n = (s', b', w'))
    (t : MState × Bus × List WriteEvent)
    (ht : periodic_monitoring s' b' = .ok t) :
    run_ticks s b (n + 1) = t := by
  have hu : run_ticks s b (n + 1) =
      (match periodic_monitoring (run_ticks s b n).1 (run_ticks s b n).2.1 with
       | .ok r => r
       | .error _ => ((run_ticks s b n).1, (run_ticks s b n).2.1, [])) := rfl
  rw [hu, h]
  show (match periodic_monitoring s' b' with
        | .ok r => r
        | .error _ => (s', b', [])) = t
  rw [ht]

/-- Unfolding one tick of the AC-forced run. -/
theorem run_af_step (v : ℚ) (s : MState) (b : Bus) (n : Nat) (s' : MState)
    (b' : Bus) (w' : List WriteEvent)
    (h : run_ticks_ac_forced v s b n = (s', b', w'))
    (t : MState × Bus × List WriteEvent)
    (ht : periodic_monitoring s' { b' with ac_limit := some (.num v) } = .ok t) :
    run_ticks_ac_forced v s b (n + 1) = t := by
  have hu : run_ticks_ac_forced v s b (n + 1) =
      (match periodic_monitoring (run_ticks_ac_forced v s b n).1
          { (run_ticks_ac_forced v s b n).2.1 with
            ac_limit := some (.num v) } with
       | .ok r => r
       | .error _ => ((run_ticks_ac_forced v s b n).1,
           (run_ticks_ac_forced v s b n).2.1, [])) := rfl
  rw [hu, h]
  show (match periodic_monitoring s' { b' with ac_limit := some (.num v) } with
        | .ok r => r
        | .error _ => (s', b', [])) = t
  rw [ht]

/-- C1: on every tick whose refreshed auto-mode state is ON (state 3) the
tick consists of step 1 followed by the derating step only — the
AC-input-to-generator-limit sync (step 2) is never invoked, so it performs
no write to the generator-limit setting; step 1 itself writes only the
AC-input limit.  Consequently, with the generator running, auto-mode ON
and an external actor rewriting the AC-input limit to a fixed value before
every tick, from the third tick on the controller attempts no write at
all: the generator-limit setting receives writes only from the derating
step and the system stabilizes. -/
theorem c1_auto_on_gating_and_stabilization :
    (∀ (s s1 : MState) (b : Bus),
      update_phase s b = .ok s1 →
      s1.gen_auto_current_state = some GEN_AUTO_CURRENT_ON →
      periodic_monitoring s b =
        (match sync_generator_limit_to_ac_input s1 b with
         | .error e => .error e
         | .ok (s2, b2, w2) =>
             match perform_derating s2 b2 with
             | .error e => .error e
             | .ok (s4, b4, w4) => .ok (s4, b4, w2 ++ w4))) ∧
    (∀ (s : MState) (b : Bus) (s2 : MState) (b2 : Bus) (w2 : List WriteEvent),
      sync_generator_limit_to_ac_input s b = .ok (s2, b2, w2) →
      ∀ e ∈ w2, e.target = Target.acLimit) ∧
    (∀ (v : ℚ) (s : MState) (b : Bus),
      WFBus b = true → b.writes_fail = false →
      s.vebus_service = true → is_generator_running s b = true →
      s.gen_auto_current_service = true → b.auto_state = some (.num 3) →
      ∀ n, 3 ≤ n → (run_ticks_ac_forced v s b n).2.2 = []) := by
  refine ⟨?_, ?_, ?_⟩
  · intro s s1 b hupd hon
    rcases hs : sync_generator_limit_to_ac_input s1 b with e | ⟨s2, b2, w2⟩
    · simp only [periodic_monitoring, hupd, hs]
    · have hau : s2.gen_auto_current_state = some GEN_AUTO_CURRENT_ON :=
        (sync_to_ok_facts s1 b s2 b2 w2 hs).1.trans hon
      have hgate2 : ¬(is_generator_running s2 b2 = true ∧
          s2.gen_auto_current_state = some GEN_AUTO_CURRENT_OFF) :=
        fun ⟨_, hx⟩ => absurd (hau.symm.trans hx)
          (by simp [GEN_AUTO_CURRENT_OFF, GEN_AUTO_CURRENT_ON])
      rcases hd : perform_derating s2 b2 with e | ⟨s4, b4, w4⟩
      · simp only [periodic_monitoring, hupd, hs, if_neg hgate2, if_pos hau, hd]
      · simp only [periodic_monitoring, hupd, hs, if_neg hgate2, if_pos hau, hd,
          List.append_nil]
  · exact fun s b s2 b2 w2 h => (sync_to_ok_facts s b s2 b2 w2 h).2
  · intro v s b hwf hwr hveb hrun hsvc hast n hn
    have hwf1 : WFBus { b with ac_limit := some (.num v) } = true := WF_acSet b v hwf
    have hwr1 : Bus.writes_fail { b with ac_limit := some (.num v) } = false := hwr
    have hrun1 : is_generator_running s { b with ac_limit := some (.num v) } = true :=
      (is_running_congr s s b { b with ac_limit := some (.num v) } rfl rfl).trans hrun
    have hast1 : Bus.auto_state { b with ac_limit := some (.num v) } =
        some (.num 3) := hast
    obtain ⟨s1, b1, w1, hstep1, -, -, -, -, -, -⟩ :=
      periodic_spec s { b with ac_limit := some (.num v) } hwf1 hwr1
    have hcore1 : InvOnCore s1 b1 :=
      invOnCore_establish s _ s1 b1 w1 hwf1 hwr1 hstep1
        (scenario_guard s _ hveb hrun1) (scenario_post_auto_on s _ hsvc hast1)
    have hr1 : run_ticks_ac_forced v s b 1 = (s1, b1, w1) :=
      run_af_step v s b 0 s b [] rfl _ hstep1
    obtain ⟨s2, b2, w2, hstep2, hinv2, -⟩ :=
      invOn_tick2 s1 { b1 with ac_limit := some (.num v) }
        (invOnCore_acSet s1 b1 v hcore1)
    have hr2 : run_ticks_ac_forced v s b 2 = (s2, b2, w2) :=
      run_af_step v s b 1 s1 b1 w1 hr1 _ hstep2
    have key : ∀ m : Nat,
        InvOn (run_ticks_ac_forced v s b (m + 2)).1
          { (run_ticks_ac_forced v s b (m + 2)).2.1 with
            ac_limit := some (.num v) } ∧
        (1 ≤ m → (run_ticks_ac_forced v s b (m + 2)).2.2 = []) := by
      intro m
      induction m with
      | zero =>
          rw [hr2]
          exact ⟨invOn_acSet s2 b2 v hinv2, fun hm => absurd hm (by norm_num)⟩
      | succ k ih =>
          obtain ⟨hstep, hinv⟩ :=
            invOn_tick (run_ticks_ac_forced v s b (k + 2)).1
              { (run_ticks_ac_forced v s b (k + 2)).2.1 with
                ac_limit := some (.num v) } ih.1
          have hr : run_ticks_ac_forced v s b (k + 2 + 1) =
              (updateNext (run_ticks_ac_forced v s b (k + 2)).1
                { (run_ticks_ac_forced v s b (k + 2)).2.1 with
                  ac_limit := some (.num v) },
               { (run_ticks_ac_forced v s b (k + 2)).2.1 with
                 ac_limit := some (.num v) }, []) :=
            run_af_step v s b (k + 2) _ _ _ rfl _ hstep
          refine ⟨?_, fun _ => by rw [hr]⟩
          rw [hr]
          exact invOn_acSet _ _ v hinv
    obtain ⟨m, rfl⟩ : ∃ m, n = m + 3 := ⟨n - 3, by omega⟩
    exact (key (m + 1)).2 (by omega)

/-- C2: with the generator running, auto-mode OFF (state 2), and both
set-points settled, a single external change of the AC-input limit to `w`
followed by ticks with no further external writes causes at most one write
ever to the generator-limit setting (the propagation of the rounded new
value on the first tick, when it differs beyond tolerance), no write to the
AC-input limit at all, and every tick from the second one on performs no
write: no write-write loop arises between the two set-points. -/
theorem c2_single_external_change_no_loop
    (w g p : ℚ) (s : MState) (b : Bus)
    (hwf : WFBus b = true) (hwr : b.writes_fail = false)
    (hveb : s.vebus_service = true) (hrun : is_generator_running s b = true)
    (hsvc : s.gen_auto_current_service = true)
    (hast : b.auto_state = some (.num 2))
    (hq : b.gen_limit = some (.num g))
    (hp : s.previous_generator_current_limit_setting = some p)
    (hset : |p - round10 g| ≤ 0.01) :
    ((run_ticks s { b with ac_limit := some (.num w) } 1).2.2 = [] ∨
     (run_ticks s { b with ac_limit := some (.num w) } 1).2.2 =
       [⟨Target.genLimit, round10 w⟩]) ∧
    ∀ n, 2 ≤ n →
      (run_ticks s { b with ac_limit := some (.num w) } n).2.2 = [] := by
  have hwf1 : WFBus { b with ac_limit := some (.num w) } = true := WF_acSet b w hwf
  have hwr1 : Bus.writes_fail { b with ac_limit := some (.num w) } = false := hwr
  have hrun1 : is_generator_running s { b with ac_limit := some (.num w) } = true :=
    hrun
  have hast1 : Bus.auto_state { b with ac_limit := some (.num w) } =
      some (.num 2) := hast
  have hau1 : MState.gen_auto_current_state (updateNext s { b with ac_limit := some (.num w) }) = some GEN_AUTO_CURRENT_OFF :=
    scenario_post_auto_off s _ hsvc hast1
  have hguard1 : Guard (updateNext s { b with ac_limit := some (.num w) })
      { b with ac_limit := some (.num w) } = true :=
    scenario_guard s _ hveb hrun1
  obtain ⟨hv1, hr1g⟩ : MState.vebus_service (updateNext s { b with ac_limit := some (.num w) }) = true ∧
      is_generator_running (updateNext s { b with ac_limit := some (.num w) })
        { b with ac_limit := some (.num w) } = true := by
    simpa [Guard] using hguard1
  have hq1 : Bus.gen_limit { b with ac_limit := some (.num w) } =
      some (.num g) := hq
  have hp1 : MState.previous_generator_current_limit_setting (updateNext s { b with ac_limit := some (.num w) }) = some p :=
    (updateNext_prev_gen s _).trans hp
  have ha1 : Bus.ac_limit { b with ac_limit := some (.num w) } =
      some (.num w) := rfl
  have e1 : sync_generator_limit_to_ac_input
      (updateNext s { b with ac_limit := some (.num w) })
      { b with ac_limit := some (.num w) } =
      .ok (updateNext s { b with ac_limit := some (.num w) },
           { b with ac_limit := some (.num w) }, []) :=
    sync_to_noop _ _ g p hguard1 hq1 hp1 (by simpa using hset)
  have hgate2 : is_generator_running
        (updateNext s { b with ac_limit := some (.num w) })
        { b with ac_limit := some (.num w) } = true ∧
      MState.gen_auto_current_state (updateNext s { b with ac_limit := some (.num w) }) = some GEN_AUTO_CURRENT_OFF := ⟨hr1g, hau1⟩
  obtain ⟨t, c, wl, hstep1, hwshape, hnot3⟩ :
      ∃ t c wl, periodic_monitoring s { b with ac_limit := some (.num w) } =
          .ok (t, c, wl) ∧
        (wl = [] ∨ wl = [⟨Target.genLimit, round10 w⟩]) ∧
        t.gen_auto_current_state ≠ some GEN_AUTO_CURRENT_ON := by
    by_cases hc : acChange (updateNext s { b with ac_limit := some (.num w) })
        w = true
    · by_cases hd2 : |g - round10 w| > 0.01
      · have e2 := sync_from_write_diff _ _ w g hv1 hr1g ha1 hc hq1 hd2
        have hno : ¬(MState.gen_auto_current_state
            { (updateNext s { b with ac_limit := some (.num w) }) with
              previous_generator_current_limit_setting := some (round10 w),
              previous_ac_current_limit := some (round10 w) } =
            some GEN_AUTO_CURRENT_ON) := by
          simp only [hau1]
          simp [GEN_AUTO_CURRENT_OFF, GEN_AUTO_CURRENT_ON]
        exact ⟨_, _, _, by
          simp only [periodic_monitoring, update_phase_eval s _ hwf1, e1,
            if_pos hgate2, e2, if_neg hno, List.append_nil, List.nil_append]
          rfl,
          .inr rfl, hno⟩
      · have e2 := sync_from_tracker _ _ w g hv1 hr1g ha1 hc hq1 hd2
        have hno : ¬(MState.gen_auto_current_state
            { (updateNext s { b with ac_limit := some (.num w) }) with
              previous_ac_current_limit := some (round10 w) } =
            some GEN_AUTO_CURRENT_ON) := by
          simp only [hau1]
          simp [GEN_AUTO_CURRENT_OFF, GEN_AUTO_CURRENT_ON]
        exact ⟨_, _, _, by
          simp only [periodic_monitoring, update_phase_eval s _ hwf1, e1,
            if_pos hgate2, e2, if_neg hno, List.append_nil, List.nil_append]
          rfl,
          .inl rfl, hno⟩
    · obtain ⟨a, hpa, hda⟩ : ∃ a,
          MState.previous_ac_current_limit
            (updateNext s { b with ac_limit := some (.num w) }) = some a ∧
          ¬(|round10 w - a| > 0.01) := by
        rw [acChange] at hc
        rcases hpa : MState.previous_ac_current_limit
            (updateNext s { b with ac_limit := some (.num w) }) with _ | a
        · rw [hpa] at hc; simp at hc
        · rw [hpa] at hc
          exact ⟨a, rfl, by simpa using hc⟩
      have e2 := sync_from_no_change _ _ w a hv1 hr1g ha1 hpa hda
      have hno : ¬(MState.gen_auto_current_state
          (updateNext s { b with ac_limit := some (.num w) }) =
          some GEN_AUTO_CURRENT_ON) := by
        simp only [hau1]
        simp [GEN_AUTO_CURRENT_OFF, GEN_AUTO_CURRENT_ON]
      exact ⟨_, _, _, by
        simp only [periodic_monitoring, update_phase_eval s _ hwf1, e1,
          if_pos hgate2, e2, if_neg hno, List.append_nil, List.nil_append]
        rfl,
        .inl rfl, hno⟩
  have hr1 : run_ticks s { b with ac_limit := some (.num w) } 1 = (t, c, wl) :=
    run_ticks_step s _ 0 s _ [] rfl _ hstep1
  have hinv : InvOff t c :=
    invOff_establish s _ t c wl hwf1 hwr1 hstep1 hnot3
  have key : ∀ m : Nat,
      InvOff (run_ticks s { b with ac_limit := some (.num w) } (m + 1)).1
        (run_ticks s { b with ac_limit := some (.num w) } (m + 1)).2.1 ∧
      (1 ≤ m → (run_ticks s { b with ac_limit := some (.num w) } (m + 1)).2.2 = []) := by
    intro m
    induction m with
    | zero =>
        rw [hr1]
        exact ⟨hinv, fun hm => absurd hm (by norm_num)⟩
    | succ k ih =>
        obtain ⟨hstep, hinv'⟩ := invOff_tick _ _ ih.1
        have hr : run_ticks s { b with ac_limit := some (.num w) } (k + 1 + 1) =
            (updateNext
              (run_ticks s { b with ac_limit := some (.num w) } (k + 1)).1
              (run_ticks s { b with ac_limit := some (.num w) } (k + 1)).2.1,
             (run_ticks s { b with ac_limit := some (.num w) } (k + 1)).2.1,
             []) :=
          run_ticks_step s _ (k + 1) _ _ _ rfl _ hstep
        refine ⟨?_, fun _ => by rw [hr]⟩
        rw [hr]
        exact hinv'
  refine ⟨by rw [hr1]; exact hwshape, ?_⟩
  intro n hn
  obtain ⟨m, rfl⟩ : ∃ m, n = m + 2 := ⟨n - 2, by omega⟩
  exact (key (m + 1)).2 (by omega)

/-- C3: the derating calculator computes exactly the product of the three
spec multipliers and the 0.9 output buffer, and every value the derating
step writes is 62.5 times this factor, rounded to one decimal at the point
of writing. -/
theorem c3_derating_formula :
    (∀ t a g : ℚ, calculate_derating_factor t a g =
      spec_temp_mult t * spec_alt_mult a * spec_gen_mult g * 0.9) ∧
    (∀ (s : MState) (b : Bus) (s4 : MState) (b4 : Bus) (w4 : List WriteEvent),
      perform_derating s b = .ok (s4, b4, w4) →
      ∀ e ∈ w4, e.target = Target.genLimit ∧
        e.value = round10 (62.5 * calculate_derating_factor
          s.outdoor_temp_fahrenheit s.altitude_feet
          s.generator_temp_fahrenheit)) := by
  constructor
  · intro t a g
    simp only [calculate_derating_factor, spec_temp_mult, spec_alt_mult,
      spec_gen_mult, BASE_TEMPERATURE_THRESHOLD_F, TEMP_COEFFICIENT,
      ALTITUDE_COEFFICIENT, HIGH_GENTEMP_THRESHOLD_F, MEDIUM_GENTEMP_THRESHOLD_F,
      HIGH_GENTEMP_REDUCTION, MEDIUM_GENTEMP_REDUCTION, OUTPUT_BUFFER]
  · intro s b s4 b4 w4 h e he
    have hr : rStar s = round10 (62.5 * calculate_derating_factor
        s.outdoor_temp_fahrenheit s.altitude_feet
        s.generator_temp_fahrenheit) := rfl
    by_cases hi : s.initial_derated_output_logged = false
    · rw [derating_first s b hi] at h
      simp only [Except.ok.injEq, Prod.mk.injEq] at h
      rw [← h.2.2] at he
      simp only [List.mem_singleton] at he
      rw [he, ← hr]
      exact ⟨rfl, rfl⟩
    · rw [Bool.not_eq_false] at hi
      rcases hq : b.gen_limit with _ | v
      · rw [derating_none s b hi hq] at h
        simp only [Except.ok.injEq, Prod.mk.injEq] at h
        rw [← h.2.2] at he
        simp only [List.mem_singleton] at he
        rw [he, ← hr]
        exact ⟨rfl, rfl⟩
      · rcases v with g | l | _
        · by_cases hd : |g - rStar s| > 0.01
          · rw [derating_diff s b g hi hq hd] at h
            simp only [Except.ok.injEq, Prod.mk.injEq] at h
            rw [← h.2.2] at he
            simp only [List.mem_singleton] at he
            rw [he, ← hr]
            exact ⟨rfl, rfl⟩
          · rw [derating_close s b g hi hq hd] at h
            simp only [Except.ok.injEq, Prod.mk.injEq] at h
            rw [← h.2.2] at he
            simp at he
        · simp [perform_derating, hi, hq, sub_raw] at h
        · simp [perform_derating, hi, hq, sub_raw] at h

/-- C8 (amended): on the reference inputs the derated amps are 56.25 at
(77 °F, 0 ft, 180 °F); at (97 °F, 0 ft, 180 °F) the temperature multiplier
is 0.87, the unrounded amps are 48.9375 (48.94 only to two decimals), and
the value as rounded to one decimal at the point of writing is 48.9. -/
theorem c8_reference_values :
    BASE_GENERATOR_OUTPUT_AMPS * calculate_derating_factor 77 0 180 = 56.25 ∧
    spec_temp_mult 97 = 0.87 ∧
    BASE_GENERATOR_OUTPUT_AMPS * calculate_derating_factor 97 0 180 = 48.9375 ∧
    round10 (BASE_GENERATOR_OUTPUT_AMPS * calculate_derating_factor 97 0 180) =
      48.9 := by
  have h1 : BASE_GENERATOR_OUTPUT_AMPS * calculate_derating_factor 77 0 180 =
      56.25 := by
    norm_num [calculate_derating_factor, BASE_GENERATOR_OUTPUT_AMPS,
      BASE_TEMPERATURE_THRESHOLD_F, TEMP_COEFFICIENT, ALTITUDE_COEFFICIENT,
      HIGH_GENTEMP_THRESHOLD_F, MEDIUM_GENTEMP_THRESHOLD_F, OUTPUT_BUFFER]
  have h2 : BASE_GENERATOR_OUTPUT_AMPS * calculate_derating_factor 97 0 180 =
      48.9375 := by
    norm_num [calculate_derating_factor, BASE_GENERATOR_OUTPUT_AMPS,
      BASE_TEMPERATURE_THRESHOLD_F, TEMP_COEFFICIENT, ALTITUDE_COEFFICIENT,
      HIGH_GENTEMP_THRESHOLD_F, MEDIUM_GENTEMP_THRESHOLD_F, OUTPUT_BUFFER]
  refine ⟨h1, ?_, h2, ?_⟩
  · norm_num [spec_temp_mult]
  · rw [h2, round10_eq 48.9375 489 (by norm_num) (by norm_num)]
    norm_num

/-- C8 counterexample: the value written for the reference input
(97 °F, 0 ft, 180 °F) is not 48.94 — rounding 48.9375 to one decimal as
applied at the point of writing yields 48.9, not the two-decimal 48.94 the
claim states. -/
theorem c8_counterexample :
    round10 (BASE_GENERATOR_OUTPUT_AMPS * calculate_derating_factor 97 0 180) ≠
      48.94 := by
  have h2 : BASE_GENERATOR_OUTPUT_AMPS * calculate_derating_factor 97 0 180 =
      48.9375 := by
    norm_num [calculate_derating_factor, BASE_GENERATOR_OUTPUT_AMPS,
      BASE_TEMPERATURE_THRESHOLD_F, TEMP_COEFFICIENT, ALTITUDE_COEFFICIENT,
      HIGH_GENTEMP_THRESHOLD_F, MEDIUM_GENTEMP_THRESHOLD_F, OUTPUT_BUFFER]
  rw [h2, round10_eq 48.9375 489 (by norm_num) (by norm_num)]
  norm_num

/-- C4 (amended): with the generator running and the inverter/charger
resolved, on a readable generator-limit value step 1 writes the rounded
value to the AC-input limit exactly when no previous generator limit has
been recorded yet, or the rounded value differs from the recorded previous
generator limit by more than 0.01 A; the write updates both previous-value
trackers to the written value, and otherwise nothing happens. -/
theorem c4_step1_write_condition (s : MState) (b : Bus) (q : ℚ)
    (hg : (s.vebus_service && is_generator_running s b) = true)
    (hq : b.gen_limit = some (.num q)) :
    ((s.previous_generator_current_limit_setting = none ∨
      ∃ p, s.previous_generator_current_limit_setting = some p ∧
        |p - round10 q| > 0.01) →
      sync_generator_limit_to_ac_input s b =
        .ok ({ s with previous_ac_current_limit := some (round10 q),
                      previous_generator_current_limit_setting :=
                        some (round10 q) },
             set_dbus_value b .acLimit (round10 q),
             [⟨Target.acLimit, round10 q⟩])) ∧
    (∀ p, s.previous_generator_current_limit_setting = some p →
      |p - round10 q| ≤ 0.01 →
      sync_generator_limit_to_ac_input s b = .ok (s, b, [])) := by
  constructor
  · rintro (hp | ⟨p, hp, hd⟩)
    · exact sync_to_write_none s b q hg hq hp
    · exact sync_to_write_diff s b q p hg hq hp hd
  · intro p hp hd
    exact sync_to_noop s b q p hg hq hp (by simpa using hd)

/-- C5 (amended): with a well-formed bus, confirming writes and auto-mode
not ON, two consecutive ticks with no external change in between produce
zero writes on the second tick.  (When auto-mode is ON the claim fails:
a derating write on the first run triggers a step-1 propagation write on
the second run — see the counterexample.) -/
theorem c5_idempotent_when_not_auto_on
    (s : MState) (b : Bus) (s1 : MState) (b1 : Bus) (w1 : List WriteEvent)
    (s2 : MState) (b2 : Bus) (w2 : List WriteEvent)
    (hwf : WFBus b = true) (hwr : b.writes_fail = false)
    (h1 : periodic_monitoring s b = .ok (s1, b1, w1))
    (hnot3 : s1.gen_auto_current_state ≠ some GEN_AUTO_CURRENT_ON)
    (h2 : periodic_monitoring s1 b1 = .ok (s2, b2, w2)) :
    w2 = [] := by
  have hinv := invOff_establish s b s1 b1 w1 hwf hwr h1 hnot3
  obtain ⟨hstep, -⟩ := invOff_tick s1 b1 hinv
  have heq := h2.symm.trans hstep
  simp only [Except.ok.injEq, Prod.mk.injEq] at heq
  exact heq.2.2

/-- C6: an unresolved transfer-switch endpoint counts as "not running",
and on any tick whose refreshed state does not detect the generator
running, neither sync step changes anything or writes: the tick is exactly
the derating step when auto-mode is ON and a no-op otherwise. -/
theorem c6_not_running_only_derating :
    (∀ (s : MState) (b : Bus), s.transfer_switch_service = false →
      is_generator_running s b = false) ∧
    (∀ (s s1 : MState) (b : Bus),
      update_phase s b = .ok s1 →
      is_generator_running s1 b = false →
      periodic_monitoring s b =
        (if s1.gen_auto_current_state = some GEN_AUTO_CURRENT_ON then
          perform_derating s1 b
        else .ok (s1, b, []))) := by
  constructor
  · intro s b h
    rw [is_generator_running, if_neg (by simp [h])]
  · intro s s1 b hupd hnr
    have e1 : sync_generator_limit_to_ac_input s1 b = .ok (s1, b, []) :=
      sync_to_skip_guard s1 b (by simp [hnr])
    have hgate2 : ¬(is_generator_running s1 b = true ∧
        s1.gen_auto_current_state = some GEN_AUTO_CURRENT_OFF) := by
      simp [hnr]
    by_cases hon : s1.gen_auto_current_state = some GEN_AUTO_CURRENT_ON
    · rcases hd : perform_derating s1 b with e | ⟨s4, b4, w4⟩
      · simp only [periodic_monitoring, hupd, e1, if_neg hgate2, if_pos hon, hd]
      · simp only [periodic_monitoring, hupd, e1, if_neg hgate2, if_pos hon, hd,
          List.nil_append]
    · simp only [periodic_monitoring, hupd, e1, if_neg hgate2, if_neg hon,
        List.nil_append, List.append_nil]

/-- C10: the stored auto-mode state starts as none, a tick without a
successful auto-mode read keeps it unchanged, and on any tick whose
refreshed auto-mode state is still none both the AC-to-generator sync
(which needs state 2) and the derating step (which needs state 3) are
skipped: the tick is exactly the generator-to-AC sync (step 1). -/
theorem c10_unknown_auto_only_step1 :
    initMState.gen_auto_current_state = none ∧
    (∀ (s : MState) (b : Bus) (s' : MState),
      update_gen_auto_current_state s b = .ok s' →
      s.gen_auto_current_service = false ∨ b.auto_state = none →
      s'.gen_auto_current_state = s.gen_auto_current_state) ∧
    (∀ (s s1 : MState) (b : Bus),
      update_phase s b = .ok s1 →
      s1.gen_auto_current_state = none →
      periodic_monitoring s b = sync_generator_limit_to_ac_input s1 b) := by
  refine ⟨rfl, ?_, ?_⟩
  · intro s b s' h hc
    have hread : get_dbus_value s.gen_auto_current_service b.auto_state = none := by
      rcases hc with hc | hc
      · simp [get_dbus_value, hc]
      · simp [get_dbus_value, hc]
    rw [update_gen_auto_current_state] at h
    by_cases hf : s.gen_auto_current_service = true
    · rw [if_pos hf, hread] at h
      simp only [Except.ok.injEq] at h
      rw [← h]
    · rw [if_neg hf] at h
      simp only [Except.ok.injEq] at h
      rw [← h]
  · intro s s1 b hupd hnone
    rcases hs : sync_generator_limit_to_ac_input s1 b with e | ⟨s2, b2, w2⟩
    · simp only [periodic_monitoring, hupd, hs]
    · have hau : s2.gen_auto_current_state = none :=
        (sync_to_ok_facts s1 b s2 b2 w2 hs).1.trans hnone
      have hgate2 : ¬(is_generator_running s2 b2 = true ∧
          s2.gen_auto_current_state = some GEN_AUTO_CURRENT_OFF) := by
        simp [hau]
      have hgate3 : ¬(s2.gen_auto_current_state = some GEN_AUTO_CURRENT_ON) := by
        simp [hau]
      simp only [periodic_monitoring, hupd, hs, if_neg hgate2, if_neg hgate3,
        List.append_nil]

/-- Totality of step 2 on scalar-or-missing set-point values, with the bus
shape and the preserved auto-mode state. -/
theorem sync_from_total (s : MState) (b : Bus)
    (hsa : scalar_or_none b.ac_limit = true)
    (hsg : scalar_or_none b.gen_limit = true) :
    ∃ s3 b3 w3, sync_generator_limit_from_ac_input s b = .ok (s3, b3, w3) ∧
      (b3 = b ∨ ∃ r, b3 = set_dbus_value b .genLimit r) ∧
      s3.gen_auto_current_state = s.gen_auto_current_state := by
  by_cases hg : (s.vebus_service && is_generator_running s b) = true
  · obtain ⟨hv, hr⟩ : s.vebus_service = true ∧ is_generator_running s b = true := by
      simpa using hg
    rcases hq : b.ac_limit with _ | v
    · exact ⟨s, b, [], sync_from_none s b hv hr hq, .inl rfl, rfl⟩
    · rcases v with q | l | _
      · by_cases hc : acChange s q = true
        · rcases hgl : b.gen_limit with _ | gv
          · exact ⟨_, _, _, sync_from_write_nogen s b q hv hr hq hc hgl,
              .inr ⟨round10 q, rfl⟩, rfl⟩
          · rcases gv with g | l | _
            · by_cases hd : |g - round10 q| > 0.01
              · exact ⟨_, _, _, sync_from_write_diff s b q g hv hr hq hc hgl hd,
                  .inr ⟨round10 q, rfl⟩, rfl⟩
              · exact ⟨_, _, _, sync_from_tracker s b q g hv hr hq hc hgl hd,
                  .inl rfl, rfl⟩
            · rw [hgl] at hsg; simp [scalar_or_none] at hsg
            · rw [hgl] at hsg; simp [scalar_or_none] at hsg
        · obtain ⟨a, hp, hd⟩ : ∃ a, s.previous_ac_current_limit = some a ∧
              ¬(|round10 q - a| > 0.01) := by
            rw [acChange] at hc
            rcases hp : s.previous_ac_current_limit with _ | a
            · rw [hp] at hc; simp at hc
            · rw [hp] at hc
              exact ⟨a, rfl, by simpa using hc⟩
          exact ⟨s, b, [], sync_from_no_change s b q a hv hr hq hp hd, .inl rfl,
            rfl⟩
      · rw [hq] at hsa; simp [scalar_or_none] at hsa
      · rw [hq] at hsa; simp [scalar_or_none] at hsa
  · exact ⟨s, b, [], sync_from_skip_guard s b (by simpa using hg), .inl rfl, rfl⟩

/-- C9 (amended): on a well-formed bus — arbitrary resolution failures,
reads returning nothing, failing writes, and arbitrary (even malformed)
values at the altitude and transfer-switch endpoints — every tick runs to
completion without an uncaught exception.  (A malformed non-scalar value
at any other endpoint does raise — see the counterexample.) -/
theorem c9_tick_total_on_wellformed_bus (s : MState) (b : Bus)
    (hwf : WFBus b = true) :
    ∃ r, periodic_monitoring s b = .ok r := by
  obtain ⟨hsg, hsa, hsau, hso, hsge⟩ := WF_parts b hwf
  obtain ⟨s2, b2, w2, e1, -, bb1, -, -⟩ := sync_to_spec (updateNext s b) b hsg
  have gwf : WFBus b2 = true :=
    (bus_step_facts b b2 hwf (by
      rcases bb1 with h | ⟨r, h⟩
      · exact .inl h
      · exact .inr (.inl ⟨r, h⟩))).2.2.2.2.2.2.2.2.2.2.2.2
  obtain ⟨hsg2, hsa2, -, -, -⟩ := WF_parts b2 gwf
  by_cases hgate2 : is_generator_running s2 b2 = true ∧
      s2.gen_auto_current_state = some GEN_AUTO_CURRENT_OFF
  · obtain ⟨s3, b3, w3, e2, bb2, hau3⟩ := sync_from_total s2 b2 hsa2 hsg2
    have kwf : WFBus b3 = true :=
      (bus_step_facts b2 b3 gwf (by
        rcases bb2 with h | ⟨r, h⟩
        · exact .inl h
        · exact .inr (.inr ⟨r, h⟩))).2.2.2.2.2.2.2.2.2.2.2.2
    obtain ⟨hsg3, -, -, -, -⟩ := WF_parts b3 kwf
    have hnot3 : ¬(s3.gen_auto_current_state = some GEN_AUTO_CURRENT_ON) := by
      rw [hau3, hgate2.2]
      simp [GEN_AUTO_CURRENT_OFF, GEN_AUTO_CURRENT_ON]
    refine ⟨(s3, b3, w2 ++ w3), ?_⟩
    simp only [periodic_monitoring, update_phase_eval s b hwf, e1,
      if_pos hgate2, e2, if_neg hnot3, List.append_nil]
  · by_cases hon : s2.gen_auto_current_state = some GEN_AUTO_CURRENT_ON
    · obtain ⟨s4, b4, w4, e3, -, -, -, -, -⟩ := derating_spec s2 b2 hsg2
      refine ⟨(s4, b4, w2 ++ w4), ?_⟩
      simp only [periodic_monitoring, update_phase_eval s b hwf, e1,
        if_neg hgate2, if_pos hon, e3]
      simp
    · refine ⟨(s2, b2, w2), ?_⟩
      simp only [periodic_monitoring, update_phase_eval s b hwf, e1,
        if_neg hgate2, if_neg hon, List.append_nil]

/-- A successful outdoor-temperature refresh only moves the temperature
field. -/
theorem update_outdoor_ok_shape (s : MState) (b : Bus) (s' : MState)
    (h : update_outdoor_temperature s b = .ok s') :
    ∃ f, s' = { s with outdoor_temp_fahrenheit := f } := by
  by_cases hsc : scalar_or_none b.outdoor_c = true
  · rw [update_outdoor_temperature_eval s b hsc] at h
    simp only [Except.ok.injEq] at h
    exact ⟨outdoorNext s b, h.symm⟩
  · by_cases hf : s.outdoor_temp_service_name = true
    · exfalso
      rcases hv : b.outdoor_c with _ | v
      · rw [hv] at hsc; simp [scalar_or_none] at hsc
      · rcases v with c | l | _
        · rw [hv] at hsc; simp [scalar_or_none] at hsc
        · rw [update_outdoor_temperature, if_pos hf] at h
          simp [get_dbus_value, hf, hv, c2f] at h
        · rw [update_outdoor_temperature, if_pos hf] at h
          simp [get_dbus_value, hf, hv, c2f] at h
    · rw [update_outdoor_temperature, if_neg hf] at h
      simp only [Except.ok.injEq] at h
      exact ⟨s.outdoor_temp_fahrenheit, by rw [← h]⟩

/-- A successful generator-temperature refresh only moves the temperature
field. -/
theorem update_gentemp_ok_shape (s : MState) (b : Bus) (s' : MState)
    (h : update_generator_temperature s b = .ok s') :
    ∃ f, s' = { s with generator_temp_fahrenheit := f } := by
  by_cases hsc : scalar_or_none b.gentemp_c = true
  · rw [update_generator_temperature_eval s b hsc] at h
    simp only [Except.ok.injEq] at h
    exact ⟨genTempNext s b, h.symm⟩
  · by_cases hf : s.generator_temp_service_name = true
    · exfalso
      rcases hv : b.gentemp_c with _ | v
      · rw [hv] at hsc; simp [scalar_or_none] at hsc
      · rcases v with c | l | _
        · rw [hv] at hsc; simp [scalar_or_none] at hsc
        · rw [update_generator_temperature, if_pos hf] at h
          simp [get_dbus_value, hf, hv, c2f] at h
        · rw [update_generator_temperature, if_pos hf] at h
          simp [get_dbus_value, hf, hv, c2f] at h
    · rw [update_generator_temperature, if_neg hf] at h
      simp only [Except.ok.injEq] at h
      exact ⟨s.generator_temp_fahrenheit, by rw [← h]⟩

/-- A successful auto-mode refresh only moves the two auto-mode fields. -/
theorem update_auto_ok_shape (s : MState) (b : Bus) (s' : MState)
    (h : update_gen_auto_current_state s b = .ok s') :
    ∃ c p, s' = { s with gen_auto_current_state := c,
                         previous_gen_auto_current_state := p } := by
  by_cases hsc : scalar_or_none b.auto_state = true
  · rw [update_gen_auto_current_state_eval s b hsc] at h
    simp only [Except.ok.injEq] at h
    exact ⟨autoNext s b, autoPrevNext s b, h.symm⟩
  · by_cases hf : s.gen_auto_current_service = true
    · exfalso
      rcases hv : b.auto_state with _ | v
      · rw [hv] at hsc; simp [scalar_or_none] at hsc
      · rcases v with c | l | _
        · rw [hv] at hsc; simp [scalar_or_none] at hsc
        · rw [update_gen_auto_current_state, if_pos hf] at h
          simp [get_dbus_value, hf, hv, pyInt] at h
        · rw [update_gen_auto_current_state, if_pos hf] at h
          simp [get_dbus_value, hf, hv, pyInt] at h
    · rw [update_gen_auto_current_state, if_neg hf] at h
      simp only [Except.ok.injEq] at h
      exact ⟨s.gen_auto_current_state, s.previous_gen_auto_current_state,
        by rw [← h]⟩

/-- A successful step 2 only moves the two previous-value trackers. -/
theorem sync_from_ok_shape (s : MState) (b : Bus) (s3 : MState) (b3 : Bus)
    (w3 : List WriteEvent)
    (h : sync_generator_limit_from_ac_input s b = .ok (s3, b3, w3)) :
    s3 = { s with previous_ac_current_limit := s3.previous_ac_current_limit, previous_generator_current_limit_setting := s3.previous_generator_current_limit_setting } := by
  by_cases hg : (s.vebus_service && is_generator_running s b) = true
  · obtain ⟨hv, hr⟩ : s.vebus_service = true ∧ is_generator_running s b = true := by
      simpa using hg
    rcases hq : b.ac_limit with _ | v
    · rw [sync_from_none s b hv hr hq] at h
      simp only [Except.ok.injEq, Prod.mk.injEq] at h
      rw [← h.1]
    · rcases v with q | l | _
      · by_cases hc : acChange s q = true
        · rcases hgl : b.gen_limit with _ | gv
          · rw [sync_from_write_nogen s b q hv hr hq hc hgl] at h
            simp only [Except.ok.injEq, Prod.mk.injEq] at h
            rw [← h.1]
          · rcases gv with g | l | _
            · by_cases hd : |g - round10 q| > 0.01
              · rw [sync_from_write_diff s b q g hv hr hq hc hgl hd] at h
                simp only [Except.ok.injEq, Prod.mk.injEq] at h
                rw [← h.1]
              · rw [sync_from_tracker s b q g hv hr hq hc hgl hd] at h
                simp only [Except.ok.injEq, Prod.mk.injEq] at h
                rw [← h.1]
            · rw [sync_generator_limit_from_ac_input] at h
              rw [acChange] at hc
              simp [hg, get_dbus_value, hv, hq, pyFloat, hc, hgl, sub_raw, hr] at h
            · rw [sync_generator_limit_from_ac_input] at h
              rw [acChange] at hc
              simp [hg, get_dbus_value, hv, hq, pyFloat, hc, hgl, sub_raw, hr] at h
        · obtain ⟨a, hp, hd⟩ : ∃ a, s.previous_ac_current_limit = some a ∧
              ¬(|round10 q - a| > 0.01) := by
            rw [acChange] at hc
            rcases hp : s.previous_ac_current_limit with _ | a
            · rw [hp] at hc; simp at hc
            · rw [hp] at hc
              exact ⟨a, rfl, by simpa using hc⟩
          rw [sync_from_no_change s b q a hv hr hq hp hd] at h
          simp only [Except.ok.injEq, Prod.mk.injEq] at h
          rw [← h.1]
      · rw [sync_generator_limit_from_ac_input] at h
        simp [hg, get_dbus_value, hv, hq, pyFloat, hr] at h
      · rw [sync_generator_limit_from_ac_input] at h
        simp [hg, get_dbus_value, hv, hq, pyFloat, hr] at h
  · rw [sync_from_skip_guard s b (by simpa using hg)] at h
    simp only [Except.ok.injEq, Prod.mk.injEq] at h
    rw [← h.1]

/-- A successful step 3 only moves the first-write flag. -/
theorem derating_ok_shape (s : MState) (b : Bus) (s4 : MState) (b4 : Bus)
    (w4 : List WriteEvent) (h : perform_derating s b = .ok (s4, b4, w4)) :
    s4 = { s with initial_derated_output_logged :=
             s4.initial_derated_output_logged } := by
  by_cases hi : s.initial_derated_output_logged = false
  · rw [derating_first s b hi] at h
    simp only [Except.ok.injEq, Prod.mk.injEq] at h
    rw [← h.1]
  · rw [Bool.not_eq_false] at hi
    rcases hq : b.gen_limit with _ | v
    · rw [derating_none s b hi hq] at h
      simp only [Except.ok.injEq, Prod.mk.injEq] at h
      rw [← h.1]
    · rcases v with g | l | _
      · by_cases hd : |g - rStar s| > 0.01
        · rw [derating_diff s b g hi hq hd] at h
          simp only [Except.ok.injEq, Prod.mk.injEq] at h
          rw [← h.1]
        · rw [derating_close s b g hi hq hd] at h
          simp only [Except.ok.injEq, Prod.mk.injEq] at h
          rw [← h.1]
      · simp [perform_derating, hi, hq, sub_raw] at h
      · simp [perform_derating, hi, hq, sub_raw] at h

/-- The initial auto-mode read only moves the two auto-mode fields. -/
theorem update_auto_initial_ok_shape (s : MState) (b : Bus) (s' : MState)
    (h : update_gen_auto_current_state_initial s b = .ok s') :
    ∃ c p, s' = { s with gen_auto_current_state := c,
                         previous_gen_auto_current_state := p } := by
  by_cases hf : s.gen_auto_current_service = true
  · rcases hv : b.auto_state with _ | v
    · simp only [update_gen_auto_current_state_initial, get_dbus_value, hf,
        if_true, hv, Except.ok.injEq] at h
      exact ⟨s.gen_auto_current_state, s.previous_gen_auto_current_state,
        by rw [← h]⟩
    · rcases v with k | l | _
      · simp only [update_gen_auto_current_state_initial, get_dbus_value, hf,
          if_true, hv, pyInt, Except.ok.injEq] at h
        refine ⟨some (truncQ k), some (truncQ k), ?_⟩
        rw [← h, hf]
      · simp [update_gen_auto_current_state_initial, get_dbus_value, hf, hv,
          pyInt] at h
      · simp [update_gen_auto_current_state_initial, get_dbus_value, hf, hv,
          pyInt] at h
  · simp only [update_gen_auto_current_state_initial, hf, if_false,
      Bool.false_eq_true, Except.ok.injEq] at h
    exact ⟨s.gen_auto_current_state, s.previous_gen_auto_current_state,
      by rw [← h]⟩

/-- A successful step 1 only moves the two previous-value trackers. -/
theorem sync_to_ok_shape (s : MState) (b : Bus) (s2 : MState) (b2 : Bus)
    (w2 : List WriteEvent)
    (h : sync_generator_limit_to_ac_input s b = .ok (s2, b2, w2)) :
    s2 = { s with previous_ac_current_limit := s2.previous_ac_current_limit, previous_generator_current_limit_setting := s2.previous_generator_current_limit_setting } := by
  by_cases hg : (s.vebus_service && is_generator_running s b) = true
  · rcases hq : b.gen_limit with _ | v
    · rw [sync_to_none s b hq] at h
      simp only [Except.ok.injEq, Prod.mk.injEq] at h
      rw [← h.1]
    · rcases v with q | l | _
      · rcases hp : s.previous_generator_current_limit_setting with _ | p
        · rw [sync_to_write_none s b q hg hq hp] at h
          simp only [Except.ok.injEq, Prod.mk.injEq] at h
          rw [← h.1]
        · by_cases hd : |p - round10 q| > 0.01
          · rw [sync_to_write_diff s b q p hg hq hp hd] at h
            simp only [Except.ok.injEq, Prod.mk.injEq] at h
            rw [← h.1]
          · rw [sync_to_noop s b q p hg hq hp hd] at h
            simp only [Except.ok.injEq, Prod.mk.injEq] at h
            rw [← h.1]
      · simp [sync_generator_limit_to_ac_input, hg, hq, pyFloat] at h
      · simp [sync_generator_limit_to_ac_input, hg, hq, pyFloat] at h
  · rw [sync_to_skip_guard s b (by simpa using hg)] at h
    simp only [Except.ok.injEq, Prod.mk.injEq] at h
    rw [← h.1]

/-- With the outdoor endpoint unresolved and absent from the bus, the
refresh block leaves the outdoor temperature untouched and the endpoint
unresolved. -/
theorem update_phase_outdoor (s : MState) (b : Bus) (s1 : MState)
    (h : update_phase s b = .ok s1)
    (hflag : s.outdoor_temp_service_name = false)
    (hav : b.outdoor_avail = false) :
    s1.outdoor_temp_fahrenheit = s.outdoor_temp_fahrenheit ∧
      s1.outdoor_temp_service_name = false := by
  have h0flag : (find_unresolved_services s b).outdoor_temp_service_name = false := by
    simp [find_unresolved_services, hflag, hav]
  have hskip : update_outdoor_temperature (find_unresolved_services s b) b =
      .ok (find_unresolved_services s b) := by
    simp [update_outdoor_temperature, h0flag]
  simp only [update_phase, hskip] at h
  rcases hgt : update_generator_temperature
      (update_altitude (find_unresolved_services s b) b) b with e | s3
  · rw [hgt] at h; simp at h
  · simp only [hgt] at h
    obtain ⟨c, p, hs1⟩ := update_auto_ok_shape s3 b s1 h
    obtain ⟨f, hs3⟩ := update_gentemp_ok_shape
      (update_altitude (find_unresolved_services s b) b) b s3 hgt
    constructor
    · rw [hs1, hs3, update_altitude_eval (find_unresolved_services s b) b]
      rfl
    · rw [hs1, hs3, update_altitude_eval (find_unresolved_services s b) b]
      exact h0flag

/-- With the outdoor endpoint unresolved and absent from the bus, a
successful tick leaves the outdoor temperature untouched and the endpoint
unresolved. -/
theorem periodic_outdoor (s : MState) (b : Bus) (s' : MState) (b' : Bus)
    (w : List WriteEvent) (h : periodic_monitoring s b = .ok (s', b', w))
    (hflag : s.outdoor_temp_service_name = false)
    (hav : b.outdoor_avail = false) :
    s'.outdoor_temp_fahrenheit = s.outdoor_temp_fahrenheit ∧
      s'.outdoor_temp_service_name = false := by
  rcases hu : update_phase s b with e | s1
  · exfalso
    have he : periodic_monitoring s b = .error e := by
      simp only [periodic_monitoring, hu]
    rw [he] at h; simp at h
  · obtain ⟨hof, hoflag⟩ := update_phase_outdoor s b s1 hu hflag hav
    rcases h1 : sync_generator_limit_to_ac_input s1 b with e | p1
    · exfalso
      have he : periodic_monitoring s b = .error e := by
        simp only [periodic_monitoring, hu, h1]
      rw [he] at h; simp at h
    · obtain ⟨s2, b2, w2⟩ := p1
      have hs2 := sync_to_ok_shape s1 b s2 b2 w2 h1
      have h2of : s2.outdoor_temp_fahrenheit = s.outdoor_temp_fahrenheit := by
        rw [hs2]; exact hof
      have h2oflag : s2.outdoor_temp_service_name = false := by
        rw [hs2]; exact hoflag
      rcases h2 : (if is_generator_running s2 b2 = true ∧
          s2.gen_auto_current_state = some GEN_AUTO_CURRENT_OFF then
            sync_generator_limit_from_ac_input s2 b2
          else .ok (s2, b2, [])) with e | p2
      · exfalso
        have he : periodic_monitoring s b = .error e := by
          simp only [periodic_monitoring, hu, h1, h2]
        rw [he] at h; simp at h
      · obtain ⟨s3, b3, w3⟩ := p2
        have hs3 : s3 = { s2 with previous_ac_current_limit := s3.previous_ac_current_limit, previous_generator_current_limit_setting := s3.previous_generator_current_limit_setting } := by
          by_cases hg2 : is_generator_running s2 b2 = true ∧
              s2.gen_auto_current_state = some GEN_AUTO_CURRENT_OFF
          · rw [if_pos hg2] at h2
            exact sync_from_ok_shape s2 b2 s3 b3 w3 h2
          · rw [if_neg hg2] at h2
            simp only [Except.ok.injEq, Prod.mk.injEq] at h2
            rw [← h2.1]
        have h3of : s3.outdoor_temp_fahrenheit = s.outdoor_temp_fahrenheit := by
          rw [hs3]; exact h2of
        have h3oflag : s3.outdoor_temp_service_name = false := by
          rw [hs3]; exact h2oflag
        rcases h3 : (if s3.gen_auto_current_state = some GEN_AUTO_CURRENT_ON then
            perform_derating s3 b3 else .ok (s3, b3, [])) with e | p3
        · exfalso
          have he : periodic_monitoring s b = .error e := by
            simp only [periodic_monitoring, hu, h1, h2, h3]
          rw [he] at h; simp at h
        · obtain ⟨s4, b4, w4⟩ := p3
          have hs4 : s4 = { s3 with initial_derated_output_logged := s4.initial_derated_output_logged } := by
            by_cases hg3 : s3.gen_auto_current_state = some GEN_AUTO_CURRENT_ON
            · rw [if_pos hg3] at h3
              exact derating_ok_shape s3 b3 s4 b4 w4 h3
            · rw [if_neg hg3] at h3
              simp only [Except.ok.injEq, Prod.mk.injEq] at h3
              rw [← h3.1]
          have hok : periodic_monitoring s b = .ok (s4, b4, w2 ++ w3 ++ w4) := by
            simp only [periodic_monitoring, hu, h1, h2, h3]
          rw [hok] at h
          simp only [Except.ok.injEq, Prod.mk.injEq] at h
          constructor
          · rw [← h.1, hs4]; exact h3of
          · rw [← h.1, hs4]; exact h3oflag

/-- With the outdoor endpoint unresolved, the startup value-read pass leaves
the outdoor temperature untouched and the endpoint unresolved. -/
theorem read_initial_outdoor (s : MState) (b : Bus) (s' : MState)
    (h : read_initial_values s b = .ok s')
    (hflag : s.outdoor_temp_service_name = false) :
    s'.outdoor_temp_fahrenheit = s.outdoor_temp_fahrenheit ∧
      s'.outdoor_temp_service_name = false := by
  have hskip : update_outdoor_temperature s b = .ok s := by
    simp [update_outdoor_temperature, hflag]
  simp only [read_initial_values, hskip] at h
  rcases hgt : update_generator_temperature (update_altitude s b) b with e | s3
  · rw [hgt] at h; simp at h
  · simp only [hgt] at h
    rcases hau : update_gen_auto_current_state_initial s3 b with e | s4
    · rw [hau] at h; simp at h
    · simp only [hau] at h
      obtain ⟨f, hs3⟩ := update_gentemp_ok_shape (update_altitude s b) b s3 hgt
      obtain ⟨c, p, hs4⟩ := update_auto_initial_ok_shape s3 b s4 hau
      have h4of : s4.outdoor_temp_fahrenheit = s.outdoor_temp_fahrenheit := by
        rw [hs4, hs3, update_altitude_eval s b]
      have h4oflag : s4.outdoor_temp_service_name = false := by
        rw [hs4, hs3, update_altitude_eval s b]
        exact hflag
      rcases hgl : b.gen_limit with _ | v
      · simp only [hgl] at h
        rcases hget : get_dbus_value s4.vebus_service b.ac_limit with _ | v2
        · simp only [hget] at h
          simp only [Except.ok.injEq] at h
          exact ⟨by rw [← h]; exact h4of, by rw [← h]; exact h4oflag⟩
        · rcases v2 with q2 | l2 | _
          · simp only [hget, pyFloat, Except.ok.injEq] at h
            exact ⟨by rw [← h]; exact h4of, by rw [← h]; exact h4oflag⟩
          · simp [hget, pyFloat] at h
          · simp [hget, pyFloat] at h
      · rcases v with q | l | _
        · simp only [hgl, pyFloat] at h
          rcases hget : get_dbus_value s4.vebus_service b.ac_limit with _ | v2
          · simp only [hget] at h
            simp only [Except.ok.injEq] at h
            exact ⟨by rw [← h]; exact h4of, by rw [← h]; exact h4oflag⟩
          · rcases v2 with q2 | l2 | _
            · simp only [hget, pyFloat, Except.ok.injEq] at h
              exact ⟨by rw [← h]; exact h4of, by rw [← h]; exact h4oflag⟩
            · simp [hget, pyFloat] at h
            · simp [hget, pyFloat] at h
        · simp [hgl, pyFloat] at h
        · simp [hgl, pyFloat] at h

/-- With the outdoor sensor service absent from the bus at startup, the
state produced by `_delayed_initialization` carries the documented default
outdoor temperature and an unresolved outdoor endpoint. -/
theorem delayed_init_outdoor (b : Bus) (s' : MState)
    (h : delayed_initialization b = .ok s') (hav : b.outdoor_avail = false) :
    s'.outdoor_temp_fahrenheit = DEFAULT_OUTDOOR_TEMP_F ∧
      s'.outdoor_temp_service_name = false := by
  rw [delayed_initialization] at h
  have hflag : (find_unresolved_services initMState b).outdoor_temp_service_name
      = false := by
    simp [find_unresolved_services, initMState, hav]
  obtain ⟨h1, h2⟩ := read_initial_outdoor _ b s' h hflag
  exact ⟨by rw [h1]; rfl, h2⟩

/- Concrete evaluations on the example states. -/

/-- `round(50, 1) = 50`. -/
theorem r50 : round10 50 = 50 := by
  rw [round10_eq 50 500 (by norm_num) (by norm_num)]; norm_num

/-- `round(10, 1) = 10`. -/
theorem r10 : round10 10 = 10 := by
  rw [round10_eq 10 100 (by norm_num) (by norm_num)]; norm_num

/-- The unrounded derated output of the default environment. -/
theorem calc1 : BASE_GENERATOR_OUTPUT_AMPS *
    calculate_derating_factor 77 1000 180 = 54.5625 := by
  norm_num [calculate_derating_factor, BASE_GENERATOR_OUTPUT_AMPS,
    BASE_TEMPERATURE_THRESHOLD_F, ALTITUDE_COEFFICIENT, HIGH_GENTEMP_THRESHOLD_F,
    MEDIUM_GENTEMP_THRESHOLD_F, OUTPUT_BUFFER]

/-- `round(54.5625, 1) = 54.6`. -/
theorem r546 : round10 54.5625 = 54.6 := by
  rw [round10_eq 54.5625 546 (by norm_num) (by norm_num)]; norm_num

/-- `round(54.6, 1) = 54.6`. -/
theorem r546b : round10 54.6 = 54.6 := by
  rw [round10_eq 54.6 546 (by norm_num) (by norm_num)]; norm_num

/-- The refresh block is a no-op on the first example state. -/
theorem ex_upd1 : update_phase exS exB = .ok exS := by
  simp [update_phase, find_unresolved_services, update_outdoor_temperature,
    update_altitude, update_generator_temperature, update_gen_auto_current_state,
    get_dbus_value, pyInt, truncQ, exS, exB, emptyBus]

/-- The example bus reports the generator running. -/
theorem ex_run1 : is_generator_running exS exB = true := by
  simp [is_generator_running, get_dbus_value, GENERATOR_ON_VALUE, exS, exB,
    emptyBus]

/-- Step 1 is settled on the first example state. -/
theorem ex_sync1 : sync_generator_limit_to_ac_input exS exB =
    .ok (exS, exB, []) := by
  simp [sync_generator_limit_to_ac_input, is_generator_running, get_dbus_value,
    GENERATOR_ON_VALUE, pyFloat, exS, exB, emptyBus, r50]
  norm_num

/-- The first derating pass on the example state writes 54.6 A. -/
theorem ex_der1 : perform_derating exS exB =
    .ok (exS1, exB1, [⟨.genLimit, 54.6⟩]) := by
  simp only [perform_derating, exS1, exB1, exS, exB, emptyBus, calc1, r546,
    set_dbus_value]
  norm_num

/-- The first tick on the example state: one derating write of 54.6 A. -/
theorem ex_tick1 : periodic_monitoring exS exB =
    .ok (exS1, exB1, [⟨.genLimit, 54.6⟩]) := by
  simp only [periodic_monitoring, ex_upd1, ex_sync1, ex_run1,
    GEN_AUTO_CURRENT_OFF, GEN_AUTO_CURRENT_ON]
  norm_num [show exS.gen_auto_current_state = some 3 from rfl]
  rw [ex_der1]
  norm_num

/-- The refresh block is a no-op after the first example tick. -/
theorem ex_upd2 : update_phase exS1 exB1 = .ok exS1 := by
  simp [update_phase, find_unresolved_services, update_outdoor_temperature,
    update_altitude, update_generator_temperature, update_gen_auto_current_state,
    get_dbus_value, pyInt, truncQ, exS1, exS, exB1, exB, emptyBus]

/-- Step 1 after the first example tick: the generator limit moved to 54.6
while the tracker still holds 50, so the change propagates to the AC-input
limit. -/
theorem ex_sync2 : sync_generator_limit_to_ac_input exS1 exB1 =
    .ok ({ exS1 with previous_ac_current_limit := some 54.6, previous_generator_current_limit_setting := some 54.6 },
         { exB1 with ac_limit := some (.num 54.6) }, [⟨.acLimit, 54.6⟩]) := by
  rw [sync_to_write_diff exS1 exB1 54.6 50
    (by simp [exS1, exS, exB1, exB, emptyBus, is_generator_running,
      get_dbus_value, GENERATOR_ON_VALUE]) rfl rfl
      (by rw [r546b, gt_iff_lt, lt_abs]; right; norm_num),
    r546b]
  simp [set_dbus_value, exB1, exB, emptyBus]

/-- The derated target of the example environment is 54.6 A. -/
theorem ex_rstar : rStar { exS1 with previous_ac_current_limit := some 54.6, previous_generator_current_limit_setting := some 54.6 } = 54.6 := by
  rw [show rStar { exS1 with previous_ac_current_limit := some 54.6, previous_generator_current_limit_setting := some 54.6 } =
    round10 (BASE_GENERATOR_OUTPUT_AMPS * calculate_derating_factor 77 1000 180) from rfl,
    calc1, r546]

/-- The derating pass after the first example tick is settled. -/
theorem ex_der2 : perform_derating
    { exS1 with previous_ac_current_limit := some 54.6, previous_generator_current_limit_setting := some 54.6 }
    { exB1 with ac_limit := some (.num 54.6) } =
    .ok ({ exS1 with previous_ac_current_limit := some 54.6, previous_generator_current_limit_setting := some 54.6 },
         { exB1 with ac_limit := some (.num 54.6) }, []) := by
  refine derating_close _ _ 54.6 rfl rfl ?_
  rw [ex_rstar]
  norm_num

/-- The second tick on the example state: one step-1 write of 54.6 A to the
AC-input limit. -/
theorem ex_tick2 : periodic_monitoring exS1 exB1 =
    .ok ({ exS1 with previous_ac_current_limit := some 54.6, previous_generator_current_limit_setting := some 54.6 },
         { exB1 with ac_limit := some (.num 54.6) }, [⟨.acLimit, 54.6⟩]) := by
  have hauto : ({ exS1 with previous_ac_current_limit := some 54.6, previous_generator_current_limit_setting := some 54.6 } : MState).gen_auto_current_state = some 3 := rfl
  have hg2 : ¬(is_generator_running
      { exS1 with previous_ac_current_limit := some 54.6, previous_generator_current_limit_setting := some 54.6 }
      { exB1 with ac_limit := some (.num 54.6) } = true ∧
      ({ exS1 with previous_ac_current_limit := some 54.6, previous_generator_current_limit_setting := some 54.6 } : MState).gen_auto_current_state
        = some GEN_AUTO_CURRENT_OFF) := by
    rintro ⟨-, h2⟩
    rw [hauto] at h2
    exact absurd h2 (by decide)
  have hg3 : ({ exS1 with previous_ac_current_limit := some 54.6, previous_generator_current_limit_setting := some 54.6 } : MState).gen_auto_current_state
      = some GEN_AUTO_CURRENT_ON := hauto
  simp only [periodic_monitoring, ex_upd2, ex_sync2, if_neg hg2, if_pos hg3,
    ex_der2]
  rfl

/-- **C5 counterexample.**  In the auto-ON regime with everything settled at
50 A and a pending first derating write, the first tick writes the derated
54.6 A into the generator-limit setting; the second tick — with no external
change to either set-point and an unchanged derated output — still writes
54.6 A to the AC-input limit, because step 1 propagates the first tick's own
write.  The second run is therefore not write-free. -/
theorem c5_counterexample :
    (run_ticks exS exB 1).2.2 = [⟨.genLimit, 54.6⟩] ∧
    rStar (run_ticks exS exB 1).1 = rStar exS ∧
    (run_ticks exS exB 2).2.2 = [⟨.acLimit, 54.6⟩] := by
  have h1 : run_ticks exS exB 1 = (exS1, exB1, [⟨.genLimit, 54.6⟩]) :=
    run_ticks_step exS exB 0 exS exB [] rfl _ ex_tick1
  have h2 : run_ticks exS exB 2 =
      ({ exS1 with previous_ac_current_limit := some 54.6, previous_generator_current_limit_setting := some 54.6 },
       { exB1 with ac_limit := some (.num 54.6) }, [⟨.acLimit, 54.6⟩]) :=
    run_ticks_step exS exB 1 exS1 exB1 [⟨.genLimit, 54.6⟩] h1 _ ex_tick2
  refine ⟨by rw [h1], ?_, by rw [h2]⟩
  rw [h1]
  rfl

/-- **C4 counterexample.**  With the generator running, the inverter/charger
endpoint resolved, a successful 10 A generator-limit read, and *no previous
AC limit recorded*, step 1 writes nothing: the None-check of the source is
on the previous generator-limit tracker, not on the previous AC limit as
the spec's wording has it. -/
theorem c4_counterexample :
    sync_generator_limit_to_ac_input c4S c4B = .ok (c4S, c4B, []) ∧
    c4S.previous_ac_current_limit = none ∧
    (c4S.vebus_service && is_generator_running c4S c4B) = true ∧
    c4B.gen_limit = some (.num 10) := by
  have hg : (c4S.vebus_service && is_generator_running c4S c4B) = true := by
    simp [c4S, exS, c4B, exB, emptyBus, is_generator_running, get_dbus_value,
      GENERATOR_ON_VALUE]
  refine ⟨?_, rfl, hg, rfl⟩
  refine sync_to_noop c4S c4B 10 10 hg rfl rfl ?_
  rw [r10]
  norm_num

/-- **C9 counterexample.**  A malformed (empty-array) value at the resolved
outdoor-temperature endpoint makes the tick raise an uncaught `TypeError`:
the temperature update paths, unlike the altitude path, do not catch
conversion errors. -/
theorem c9_counterexample :
    periodic_monitoring c9S c9B = .error .typeError := by
  simp [periodic_monitoring, update_phase, find_unresolved_services,
    update_outdoor_temperature, get_dbus_value, c2f, c9S, c9B, initMState,
    emptyBus]

/-- **C7.**  The environmental sample is always fully populated: the
constructor seeds the documented defaults (outdoor 77.0 °F, altitude
1000.0 ft, generator 180.0 °F); an unresolved endpoint or a missing read
leaves the temperature fields untouched, and the altitude field survives
missing and malformed reads as well; in a full run in which the
outdoor-temperature service never appears on the bus, every surviving state
carries the default 77.0 °F outdoor temperature, on which the derating
calculator still produces the defined result
`alt_mult * gen_mult * 0.9`. -/
theorem c7_environmental_defaults_and_retention :
    (initMState.outdoor_temp_fahrenheit = DEFAULT_OUTDOOR_TEMP_F ∧
     initMState.altitude_feet = DEFAULT_ALTITUDE_FEET ∧
     initMState.generator_temp_fahrenheit = DEFAULT_GENERATOR_TEMP_F) ∧
    (∀ (s : MState) (b : Bus), b.outdoor_c = none ∨
       s.outdoor_temp_service_name = false →
       update_outdoor_temperature s b = .ok s) ∧
    (∀ (s : MState) (b : Bus), b.gentemp_c = none ∨
       s.generator_temp_service_name = false →
       update_generator_temperature s b = .ok s) ∧
    (∀ (s : MState) (b : Bus), b.altitude_raw = none ∨
       b.altitude_raw = some (.arr []) ∨ b.altitude_raw = some .other ∨
       s.gps_service_name = false →
       (update_altitude s b).altitude_feet = s.altitude_feet) ∧
    (∀ bs : Nat → Bus, (∀ n, (bs n).outdoor_avail = false) →
       ∀ n s, run_from_start bs n = some s →
         s.outdoor_temp_fahrenheit = DEFAULT_OUTDOOR_TEMP_F ∧
           s.outdoor_temp_service_name = false) ∧
    (∀ a g : ℚ, calculate_derating_factor DEFAULT_OUTDOOR_TEMP_F a g =
       spec_alt_mult a * spec_gen_mult g * OUTPUT_BUFFER) := by
  refine ⟨⟨rfl, rfl, rfl⟩, ?_, ?_, ?_, ?_, ?_⟩
  · intro s b h
    rcases h with h | h
    · simp [update_outdoor_temperature, get_dbus_value, h]
    · simp [update_outdoor_temperature, h]
  · intro s b h
    rcases h with h | h
    · simp [update_generator_temperature, get_dbus_value, h]
    · simp [update_generator_temperature, h]
  · intro s b h
    rcases h with h | h | h | h
    · by_cases hf : s.gps_service_name = true <;>
        simp [update_altitude, get_dbus_value, h, hf]
    · by_cases hf : s.gps_service_name = true <;>
        simp [update_altitude, get_dbus_value, h, hf]
    · by_cases hf : s.gps_service_name = true <;>
        simp [update_altitude, get_dbus_value, h, hf]
    · simp [update_altitude, h]
  · intro bs hbs n
    induction n with
    | zero =>
        intro s hs
        simp only [run_from_start] at hs
        rcases hd : delayed_initialization (bs 0) with e | s0
        · rw [hd] at hs; simp at hs
        · simp only [hd, Option.some.injEq] at hs
          obtain ⟨h1, h2⟩ := delayed_init_outdoor (bs 0) s0 hd (hbs 0)
          exact ⟨hs ▸ h1, hs ▸ h2⟩
    | succ n ih =>
        intro s hs
        simp only [run_from_start] at hs
        rcases hr : run_from_start bs n with _ | t
        · rw [hr] at hs; simp at hs
        · simp only [hr] at hs
          obtain ⟨ih1, ih2⟩ := ih t hr
          rcases hp : periodic_monitoring t (bs (n + 1)) with e | r
          · rw [hp] at hs; simp at hs
          · simp only [hp, Option.some.injEq] at hs
            obtain ⟨p1, p2⟩ := periodic_outdoor t (bs (n + 1)) r.1 r.2.1 r.2.2
              (by rw [hp]) ih2 (hbs (n + 1))
            exact ⟨hs ▸ (p1.trans ih1), hs ▸ p2⟩
  · intro a g
    have h : calculate_derating_factor DEFAULT_OUTDOOR_TEMP_F a g =
        spec_temp_mult DEFAULT_OUTDOOR_TEMP_F * spec_alt_mult a *
          spec_gen_mult g * 0.9 := by
      simp only [calculate_derating_factor, spec_temp_mult, spec_alt_mult,
        spec_gen_mult, DEFAULT_OUTDOOR_TEMP_F, BASE_TEMPERATURE_THRESHOLD_F,
        TEMP_COEFFICIENT, ALTITUDE_COEFFICIENT, HIGH_GENTEMP_THRESHOLD_F,
        MEDIUM_GENTEMP_THRESHOLD_F, HIGH_GENTEMP_REDUCTION,
        MEDIUM_GENTEMP_REDUCTION, OUTPUT_BUFFER]
    rw [h, show spec_temp_mult DEFAULT_OUTDOOR_TEMP_F = 1 from by
      rw [spec_temp_mult]; norm_num [DEFAULT_OUTDOOR_TEMP_F], one_mul,
      OUTPUT_BUFFER]

/- One settled tick in the auto-OFF regime, for the witnesses below. -/

/-- The refresh block is a no-op on the auto-OFF example state. -/
theorem c2_upd : update_phase c2S c2B = .ok c2S := by
  simp [update_phase, find_unresolved_services, update_outdoor_temperature,
    update_altitude, update_generator_temperature, update_gen_auto_current_state,
    get_dbus_value, pyInt, truncQ, c2S, exS, c2B, exB, emptyBus]

/-- The auto-OFF example bus reports the generator running. -/
theorem c2_run : is_generator_running c2S c2B = true := by
  simp [is_generator_running, get_dbus_value, GENERATOR_ON_VALUE, c2S, exS,
    c2B, exB, emptyBus]

/-- Step 1 is settled on the auto-OFF example state. -/
theorem c2_sync1 : sync_generator_limit_to_ac_input c2S c2B =
    .ok (c2S, c2B, []) := by
  simp [sync_generator_limit_to_ac_input, is_generator_running, get_dbus_value,
    GENERATOR_ON_VALUE, pyFloat, c2S, exS, c2B, exB, emptyBus, r50]
  norm_num

/-- Step 2 detects no change on the auto-OFF example state. -/
theorem c2_from : sync_generator_limit_from_ac_input c2S c2B =
    .ok (c2S, c2B, []) := by
  refine sync_from_no_change c2S c2B 50 50 rfl c2_run rfl rfl ?_
  rw [r50]
  norm_num

/-- A full settled tick in the auto-OFF regime: no writes, nothing moves. -/
theorem c2_tick : periodic_monitoring c2S c2B = .ok (c2S, c2B, []) := by
  have hg2 : is_generator_running c2S c2B = true ∧
      c2S.gen_auto_current_state = some GEN_AUTO_CURRENT_OFF := ⟨c2_run, rfl⟩
  have hg3 : ¬(c2S.gen_auto_current_state = some GEN_AUTO_CURRENT_ON) := by
    simp [c2S, exS, GEN_AUTO_CURRENT_ON]
  simp only [periodic_monitoring, c2_upd, c2_sync1, if_pos hg2, c2_from,
    if_neg hg3]
  rfl

/-- Witness for C2: the single-change scenario at 50 A in the auto-OFF
example regime. -/
theorem c2_witness :
    ((run_ticks c2S { c2B with ac_limit := some (.num 50) } 1).2.2 = [] ∨
     (run_ticks c2S { c2B with ac_limit := some (.num 50) } 1).2.2 =
       [⟨Target.genLimit, round10 50⟩]) ∧
    ∀ n, 2 ≤ n →
      (run_ticks c2S { c2B with ac_limit := some (.num 50) } n).2.2 = [] :=
  c2_single_external_change_no_loop 50 50 50 c2S c2B rfl rfl rfl c2_run rfl
    rfl rfl rfl (by rw [r50]; norm_num)

/-- Witness for C4: the write-condition case split applied at a settled
10 A generator limit. -/
theorem c4_witness :
    sync_generator_limit_to_ac_input c4S c4B = .ok (c4S, c4B, []) :=
  (c4_step1_write_condition c4S c4B 10
    (by simp [c4S, exS, c4B, exB, emptyBus, is_generator_running,
      get_dbus_value, GENERATOR_ON_VALUE]) rfl).2 10 rfl
    (by rw [r10]; norm_num)

/-- Witness for C5 (amended): two settled auto-OFF ticks, the second
write-free. -/
theorem c5_witness : WFBus c2B = true ∧ ([] : List WriteEvent) = [] :=
  ⟨rfl, c5_idempotent_when_not_auto_on c2S c2B c2S c2B [] c2S c2B [] rfl rfl
    c2_tick (by simp [c2S, exS, GEN_AUTO_CURRENT_ON]) c2_tick⟩

/-- Witness for C9 (amended): the tick is total on the empty well-formed
bus from the initial state. -/
theorem c9_witness : ∃ r, periodic_monitoring initMState emptyBus = .ok r :=
  c9_tick_total_on_wellformed_bus initMState emptyBus rfl

end GenAutoCurrent
